import Mathlib

/-!
Verification of the grading harness of the bonif-station-meteo repository.

The harness lives in `tests/test_instructor.py`: eleven static-analysis
detectors that inspect the student repository (AST queries plus regular
expressions over raw and comment-stripped text) and report one pass/fail/skip
verdict each.  This file gives a shallow embedding of the harness:

* external effects (the filesystem listing, CPython's `ast.parse` and
  `tokenize.generate_tokens`) are modelled as explicit inputs: a file carries
  its raw text together with the outcome the parser produces on that text,
  and the tokenizer's outcome is passed to the stripping helper;
* every helper and detector of `test_instructor.py` is translated into an
  executable Lean function, including the exact semantics of each regular
  expression the source uses (the character classes are modelled on the
  ASCII range; all texts the theorems evaluate are such that this agrees
  with CPython's unicode-aware classes);
* the unmodified baseline repository is embedded verbatim (full file texts,
  syntax-tree skeletons carrying every import statement, and the exact
  token stream CPython 3.11 produces for `main.py`).

Python exceptions are modelled with `Except`: a detector that lets an
exception escape returns `Except.error`, a completed detector returns
`Except.ok` with its verdict.
-/

namespace StationMeteo

/-- Outcome of one detector, as surfaced by the pytest reporting layer:
`pass` (the test body returns), `fail` (`pytest.fail`), `skip` (`pytest.skip`). -/
inductive Verdict where
  | pass
  | fail
  | skip
deriving DecidableEq, Repr

/-- Python exceptions that can escape the harness's helpers: `readFault`
models a read error from `Path.read_text` (e.g. `UnicodeDecodeError` or
`PermissionError`), `indentFault` models an `IndentationError` raised by the
tokenizer (which is not a `tokenize.TokenError`). -/
inductive PyError where
  | readFault
  | indentFault
deriving DecidableEq, Repr

/-! ## Character classes and low-level string scanning

The regular expressions of `test_instructor.py` use the classes `\w`, `\s`,
`\d`, `[A-Z]`, `[A-Z_0-9]`, `[<>]`, `['\"]`.  They are modelled here over
`List Char`, on the ASCII range. -/

/-- `[A-Z]`. -/
def isUpperC (c : Char) : Bool := 'A' ≤ c && c ≤ 'Z'

/-- `[a-z]`. -/
def isLowerC (c : Char) : Bool := 'a' ≤ c && c ≤ 'z'

/-- `\d` (ASCII range). -/
def isDigitC (c : Char) : Bool := '0' ≤ c && c ≤ '9'

/-- `[A-Z_0-9]`, the class of the constant-name regex of detector 5. -/
def isUpNumC (c : Char) : Bool := isUpperC c || isDigitC c || c == '_'

/-- `\w` (ASCII range): letters, digits and underscore. -/
def isWordC (c : Char) : Bool := isUpperC c || isLowerC c || isDigitC c || c == '_'

/-- `\s`: the whitespace characters of Python's `re` (ASCII range). -/
def isSpaceC (c : Char) : Bool :=
  c == ' ' || c == '\t' || c == '\n' || c == '\x0d' || c == '\x0b' || c == '\x0c'

/-- ASCII lower-casing, the model of `str.lower` / `re.IGNORECASE` used here.
All case-insensitive patterns in the source are pure-ASCII, so lowering only
the ASCII range agrees with CPython on every comparison performed. -/
def lowerC (c : Char) : Char :=
  if isUpperC c then Char.ofNat (c.toNat + 32) else c

/-- `['\"]`: a single or double quote. -/
def isQuoteC (c : Char) : Bool := c == '\x27' || c == '"'

/-- Does `pat` occur as a prefix of `s`? -/
def prefAt : List Char → List Char → Bool
  | [], _ => true
  | _ :: _, [] => false
  | p :: ps, c :: cs => p == c && prefAt ps cs

/-- Substring search: does `pat` occur anywhere in `s`?  Model of
`re.search` on a regex that is a literal string. -/
def occursL (pat : List Char) : List Char → Bool
  | [] => prefAt pat []
  | c :: rest => prefAt pat (c :: rest) || occursL pat rest

/-- Case-insensitive substring search (`re.search` with `re.IGNORECASE` on a
literal pattern); both sides are ASCII-lowered. -/
def occursCI (pat : String) (s : List Char) : Bool :=
  occursL (pat.data.map lowerC) (s.map lowerC)

/-- Case-sensitive substring search over a `String`. -/
def occursS (pat : String) (s : String) : Bool := occursL pat.data s.data

/-- `s.startswith(pre)`: character-list model of `str.startswith`. -/
def strStarts (s pre : String) : Bool := prefAt pre.data s.data

/-- Join character-list lines with newline separators. -/
def joinL : List (List Char) → List Char
  | [] => []
  | [l] => l
  | l :: ls => l ++ '\n' :: joinL ls

/-- Join string lines with newline separators: a file whose lines (in order)
are `ls` has `joinLines ls` as its content. -/
def joinLines (ls : List String) : String := ⟨joinL (ls.map String.data)⟩

/-- `∃` over every suffix of `s`: the scan loop of `re.search`, where `p`
decides whether the (suffix starting at the) current position matches.  All
patterns used here need at least one character, so the empty suffix is not
tried. -/
def scanAny (p : List Char → Bool) : List Char → Bool
  | [] => false
  | c :: rest => p (c :: rest) || scanAny p rest

/-- Longest run: `takeRun p s = (n, rest)` where `n` is the length of the
maximal prefix of `s` whose characters satisfy `p` and `rest` is what
follows.  Models a greedy `X*` / `X+` whose class is disjoint from what the
regex requires next (then greedy matching is deterministic). -/
def takeRun (p : Char → Bool) : List Char → Nat × List Char
  | [] => (0, [])
  | c :: rest =>
    if p c then
      let r := takeRun p rest
      (r.1 + 1, r.2)
    else (0, c :: rest)

/-- Drop the maximal run of characters satisfying `p` (greedy `X*`). -/
def dropRun (p : Char → Bool) (s : List Char) : List Char := (takeRun p s).2

end StationMeteo

namespace StationMeteo

/-! ## Models of the individual regular expressions of `test_instructor.py`

Each definition translates one regex of the source; the source pattern is
quoted in the doc comment.  Greedy pieces whose character class is disjoint
from the continuation are implemented with maximal runs (equivalent to the
backtracking semantics); the optional pieces `=?`, `-?`, `\.?` try the
consuming branch first and fall back, exactly as the regex engine does. -/

/-- After `[<>]` in detector 3's first pattern: `\s*-?\d`. -/
def d3TailNum (s : List Char) : Bool :=
  let s1 := dropRun isSpaceC s
  let s2 := match s1 with
    | '-' :: r => r
    | _ => s1
  match s2 with
  | c :: _ => isDigitC c
  | [] => false

/-- `[<>]=?` followed by `\s*-?\d` (detector 3, pattern 1). -/
def d3OpNum (s : List Char) : Bool :=
  match s with
  | c :: r =>
    (c == '<' || c == '>') &&
      (match r with
       | '=' :: r2 => d3TailNum r2 || d3TailNum r
       | _ => d3TailNum r)
  | [] => false

/-- The sensor-variable words of detector 3's first two patterns. -/
def d3Words : List String := ["temperature", "temp", "humidity", "humidite", "hum"]

/-- If (the ASCII-lowering of) `w` is a prefix of `s`, return what follows. -/
def ciStrip (w : String) (s : List Char) : Option (List Char) :=
  let wl := w.data.map lowerC
  if prefAt wl s then some (s.drop wl.length) else none

/-- Pattern 1 of detector 3 at the current position:
`(temperature|temp|humidity|humidite|hum)\s*[<>]=?\s*-?\d` (IGNORECASE);
`s` is already lowered. -/
def d3Pat1At (s : List Char) : Bool :=
  d3Words.any fun w =>
    match ciStrip w s with
    | some rest => d3OpNum (dropRun isSpaceC rest)
    | none => false

/-- After the comparison operator in detector 3's second pattern:
`\s*(temperature|temp|humidity|humidite|hum)`; `s` is already lowered. -/
def d3TailWord (s : List Char) : Bool :=
  let s1 := dropRun isSpaceC s
  d3Words.any fun w => (ciStrip w s1).isSome

/-- Pattern 2 of detector 3 at the current position:
`-?\d+\.?\d*\s*[<>]=?\s*(temperature|temp|humidity|humidite|hum)`
(IGNORECASE); `s` is already lowered. -/
def d3Pat2At (s : List Char) : Bool :=
  let s0 := match s with
    | '-' :: r => r
    | _ => s
  match s0 with
  | c :: r =>
    isDigitC c &&
      (let r1 := dropRun isDigitC r
       let r2 := match r1 with
         | '.' :: q => dropRun isDigitC q
         | _ => r1
       let r3 := dropRun isSpaceC r2
       match r3 with
       | op :: r4 =>
         (op == '<' || op == '>') &&
           (match r4 with
            | '=' :: r5 => d3TailWord r5 || d3TailWord r4
            | _ => d3TailWord r4)
       | [] => false)
  | [] => false

/-- Detector 3's four patterns, searched with `re.IGNORECASE` over the
stripped text:
1. `(temperature|temp|humidity|humidite|hum)\s*[<>]=?\s*-?\d`
2. `-?\d+\.?\d*\s*[<>]=?\s*(temperature|temp|humidity|humidite|hum)`
3. `(is_valid|valide|validate|validation|plage|range|aberrant)`
4. `(MIN_|MAX_|SEUIL_|THRESHOLD)` -/
def d3AnyPattern (stripped : String) : Bool :=
  let low := stripped.data.map lowerC
  scanAny d3Pat1At low ||
  scanAny d3Pat2At low ||
  (["is_valid", "valide", "validate", "validation", "plage", "range", "aberrant"].any
    fun w => occursL w.data low) ||
  (["min_", "max_", "seuil_", "threshold"].any fun w => occursL w.data low)

/-- Detector 4's raw-text fallback:
`(strftime|isoformat|datetime\.now|datetime\.utcnow|time\.ctime|time\.localtime)`
(case-sensitive literal alternatives). -/
def d4TimeRegex (content : String) : Bool :=
  ["strftime", "isoformat", "datetime.now", "datetime.utcnow",
   "time.ctime", "time.localtime"].any fun w => occursS w content

/-- Detector 5's environment-variable regex: `os\.(environ|getenv)`. -/
def d5EnvRegex (content : String) : Bool :=
  occursS "os.environ" content || occursS "os.getenv" content

/-- One attempted match of `^[A-Z][A-Z_0-9]{2,}\s*=` at the head of `s`
(which must be a line start): returns the number of characters the match
consumes, or `none`.  The run `[A-Z_0-9]{2,}` is maximal (its class is
disjoint from `\s` and from `=`, so greedy matching cannot backtrack into a
successful shorter run). -/
def constMatchLen (s : List Char) : Option Nat :=
  match s with
  | c :: rest =>
    if isUpperC c then
      let r1 := takeRun isUpNumC rest
      if 2 ≤ r1.1 then
        let r2 := takeRun isSpaceC r1.2
        match r2.2 with
        | '=' :: _ => some (1 + r1.1 + r2.1 + 1)
        | _ => none
      else none
    else none
  | [] => none

/-- The scan of `re.findall(r"^[A-Z][A-Z_0-9]{2,}\s*=", content, re.MULTILINE)`:
walk the text; at every line start attempt a match; on success count it and
resume after the matched span (non-overlapping matches), otherwise advance one
character.  `atLS` records whether the current position is a line start.
A successful match of length `L` is counted and the following `L - 1`
characters are traversed with the `skip` counter positive, during which no
new match is attempted — this reproduces resuming the scan at the end of the
match. -/
def countConstAux : List Char → Bool → Nat → Nat
  | [], _, _ => 0
  | c :: rest, _, skip + 1 => countConstAux rest (c == '\n') skip
  | c :: rest, atLS, 0 =>
    if atLS then
      match constMatchLen (c :: rest) with
      | some L => 1 + countConstAux rest (c == '\n') (L - 1)
      | none => countConstAux rest (c == '\n') 0
    else countConstAux rest (c == '\n') 0

/-- Number of matches of detector 5's constant regex
`^[A-Z][A-Z_0-9]{2,}\s*=` (MULTILINE) in `content`. -/
def countUppercaseConstants (content : String) : Nat :=
  countConstAux content.data true 0

/-- Detector 11's monotonic-clock check:
`"time.monotonic" in content or "monotonic()" in content`. -/
def d11HasMonotonic (content : String) : Bool :=
  occursS "time.monotonic" content || occursS "monotonic()" content

/-- One attempted match of detector 11's interval pattern
`\w+\s*-\s*\w+\s*>=?\s*\w+` at the current position. -/
def d11IntervalAt (s : List Char) : Bool :=
  match s with
  | c :: r =>
    isWordC c &&
      (let r1 := dropRun isSpaceC (dropRun isWordC r)
       match r1 with
       | '-' :: r2 =>
         (let r3 := dropRun isSpaceC r2
          match r3 with
          | d :: r4 =>
            isWordC d &&
              (let r5 := dropRun isSpaceC (dropRun isWordC r4)
               match r5 with
               | '>' :: r6 =>
                 (let r7 := match r6 with
                    | '=' :: q => q
                    | _ => r6
                  match dropRun isSpaceC r7 with
                  | e :: _ => isWordC e
                  | [] => false)
               | _ => false)
          | [] => false)
       | _ => false)
  | [] => false

/-- Detector 11's (computed but unused) interval-comparison check:
`re.search(r'\w+\s*-\s*\w+\s*>=?\s*\w+', content)`. -/
def d11IntervalPattern (content : String) : Bool :=
  scanAny d11IntervalAt content.data

/-- `['\"]w['\"]` at the head of `s`. -/
def qwqAt (s : List Char) : Bool :=
  match s with
  | q1 :: 'w' :: q2 :: _ => isQuoteC q1 && isQuoteC q2
  | _ => false

/-- `['\"]a['\"]` at the head of `s`. -/
def qaqAt (s : List Char) : Bool :=
  match s with
  | q1 :: 'a' :: q2 :: _ => isQuoteC q1 && isQuoteC q2
  | _ => false

/-- `.+['\"]w['\"]` at the head of `s`: at least one non-newline character,
then a quoted `w` (the dot does not match a newline). -/
def dotPlusQwq : List Char → Bool
  | [] => false
  | c :: rest => c != '\n' && (qwqAt rest || dotPlusQwq rest)

/-- The first alternative of detector 7's file-write regex,
`open\s*\(.+['\"]w['\"]`, attempted at the current position. -/
def d7OpenWAt (s : List Char) : Bool :=
  if prefAt "open".data s then
    let r := dropRun isSpaceC (s.drop 4)
    match r with
    | '(' :: r2 => dotPlusQwq r2
    | _ => false
  else false

/-- Detector 7's file-write check,
`re.search(r"open\s*\(.+['\"]w['\"]|['\"]a['\"]", content)`.
The alternation `|` binds at the top level of the pattern, so the second
alternative is a quoted one-character `a` anywhere in the text, without any
`open(` context. -/
def hasFileWriteRegex (content : String) : Bool :=
  scanAny d7OpenWAt content.data || scanAny qaqAt content.data

/-- Detector 7's looser vocabulary check,
`re.search(r"(write|dump|save|append|fichier|file)", content, re.IGNORECASE)`. -/
def d7LooseVocab (content : String) : Bool :=
  ["write", "dump", "save", "append", "fichier", "file"].any
    fun w => occursCI w content.data

/-- The additional-sensor library name fragments of detector 6. -/
def additionalSensors : List String :=
  ["hts221", "as7341", "vcnl4200", "seesaw", "bmp280", "bme280", "bme680", "dht"]

/-- One step of the line splitter: a newline starts a new (empty) current
line and pushes the old one; any other character extends the current line. -/
def splitStep (c : Char) (acc : List Char × List (List Char)) :
    List Char × List (List Char) :=
  if c == '\n' then ([], acc.1 :: acc.2) else (c :: acc.1, acc.2)

/-- Split a text into its lines (separator `\n`), for regexes whose `.`
must not cross a newline. -/
def splitLinesL (s : List Char) : List (List Char) :=
  let r := s.foldr splitStep ([], [])
  r.1 :: r.2

/-- One (already lowered) line against `(import|from).*frag`: the line
contains `import` or `from` followed, later on the same line, by the
(lowered) fragment `fl`. -/
def d6LineMatch (fl : List Char) (line : List Char) : Bool :=
  scanAny
    (fun s =>
      (prefAt "import".data s && occursL fl (s.drop 6)) ||
      (prefAt "from".data s && occursL fl (s.drop 4)))
    line

/-- `(import|from).*frag` with `re.IGNORECASE` searched in `content`
(detector 6): the dot does not cross newlines, so the whole-text search is
the disjunction of the per-line searches; comparisons are case-insensitive
(both sides lowered). -/
def d6FragRegex (frag : String) (content : String) : Bool :=
  (splitLinesL (content.data.map lowerC)).any (d6LineMatch (frag.data.map lowerC))

/-- Does `content` match detector 6's regex for at least one recognized
sensor fragment? -/
def d6FragAny (content : String) : Bool :=
  additionalSensors.any fun frag => d6FragRegex frag content

end StationMeteo

namespace StationMeteo

/-! ## Tokenizer adapter (`_strip_comments_and_docstrings`)

CPython's `tokenize.generate_tokens` is external; its outcome on a given
source text is modelled by `TokOutcome`: the token stream on success, or one
of its two failure modes.  `tokenize.TokenError` is the only exception the
source catches; an `IndentationError` (e.g. "unindent does not match any
outer indentation level", raised for inconsistent indentation) is not a
`TokenError` and is modelled separately. -/

/-- The token types of the `tokenize` module that the stripping helper
distinguishes. -/
inductive TokType where
  | COMMENT
  | STRING
  | NAME
  | OP
  | NUMBER
  | NEWLINE
  | NL
  | INDENT
  | DEDENT
  | ENDMARKER
deriving DecidableEq, Repr

/-- One token of the stream: its type and its source text (`tokval`). -/
structure PyTok where
  type : TokType
  val : String
deriving DecidableEq, Repr

/-- Outcome of running `tokenize.generate_tokens` over a source text. -/
inductive TokOutcome where
  | ok (toks : List PyTok)
  | tokError
  | indentError
deriving DecidableEq, Repr

/-- The token-filtering loop of `_strip_comments_and_docstrings`: drop
comments; drop a string token when the previous significant token type was
INDENT, NEWLINE, NL or DEDENT (the docstring position); collect the rest;
the previous-type state is not updated by NL, NEWLINE, INDENT or DEDENT
tokens.  Initial state is INDENT. -/
def stripLoop : List PyTok → TokType → List String
  | [], _ => []
  | t :: ts, prev =>
    if t.type = TokType.COMMENT then
      stripLoop ts prev
    else if t.type = TokType.STRING &&
        (prev = TokType.INDENT || prev = TokType.NEWLINE ||
         prev = TokType.NL || prev = TokType.DEDENT) then
      stripLoop ts prev
    else
      t.val ::
        stripLoop ts
          (if t.type = TokType.NL || t.type = TokType.NEWLINE ||
              t.type = TokType.INDENT || t.type = TokType.DEDENT
           then prev else t.type)

/-- `_strip_comments_and_docstrings(source)`: on a successful tokenization
the surviving token texts are joined with single spaces; a
`tokenize.TokenError` is caught and the original source is returned; any
other tokenizer exception (such as `IndentationError`) is not caught and
propagates. -/
def strip_comments_and_docstrings (source : String) (tok : TokOutcome) :
    Except PyError String :=
  match tok with
  | .ok toks => .ok (String.intercalate " " (stripLoop toks TokType.INDENT))
  | .tokError => .ok source
  | .indentError => .error .indentFault

/-! ## Syntax-tree model

`PyNode` models the slice of Python's `ast` node universe that the harness
queries: try statements and their except handlers, import statements,
function/class/module bodies, and expression statements in docstring
position.  Statements whose kind the harness never inspects are `other`
nodes carrying their child statements, so that the generic `ast.walk`
traversal still reaches everything nested inside them. -/

/-- The expression in an `except` clause's type position, as far as
detector 2 inspects it: a plain name, a tuple of expressions, or anything
else. -/
inductive ExcExpr where
  | ename (s : String)
  | etuple (elts : List ExcExpr)
  | eother

/-- An expression statement's value, as far as detector 9 inspects it: a
string constant (`ast.Constant` with a `str` value) or anything else. -/
inductive ExprKind where
  | constStr
  | otherE
deriving DecidableEq, Repr

/-- Python AST nodes (statement level).  `tryStmt`'s second argument holds
`exceptHandler` nodes, mirroring `ast.Try.handlers`. -/
inductive PyNode where
  | module (body : List PyNode)
  | functionDef (name : String) (body : List PyNode)
  | asyncFunctionDef (name : String) (body : List PyNode)
  | classDef (name : String) (body : List PyNode)
  | tryStmt (body : List PyNode) (handlers : List PyNode)
      (orelse : List PyNode) (finalbody : List PyNode)
  | exceptHandler (type : Option ExcExpr) (body : List PyNode)
  | importStmt (names : List String)
  | importFrom (module : Option String) (names : List String)
  | exprStmt (value : ExprKind)
  | other (children : List PyNode)

mutual

/-- All nodes of the tree rooted at `n`, the node itself included: the model
of `ast.walk(n)` (which yields every node exactly once; the order, BFS in
CPython and DFS here, is irrelevant to every query the harness makes). -/
def nodesOf : PyNode → List PyNode
  | .module b => .module b :: nodesList b
  | .functionDef n b => .functionDef n b :: nodesList b
  | .asyncFunctionDef n b => .asyncFunctionDef n b :: nodesList b
  | .classDef n b => .classDef n b :: nodesList b
  | .tryStmt b h o f =>
    .tryStmt b h o f :: (nodesList b ++ nodesList h ++ nodesList o ++ nodesList f)
  | .exceptHandler t b => .exceptHandler t b :: nodesList b
  | .importStmt ns => [.importStmt ns]
  | .importFrom m ns => [.importFrom m ns]
  | .exprStmt v => [.exprStmt v]
  | .other c => .other c :: nodesList c

/-- `nodesOf` over a list of sibling nodes. -/
def nodesList : List PyNode → List PyNode
  | [] => []
  | n :: ns => nodesOf n ++ nodesList ns

end

/-- Is this node an `ast.Try`? (detector 1: `isinstance(n, ast.Try)`). -/
def isTryNode : PyNode → Bool
  | .tryStmt _ _ _ _ => true
  | _ => false

/-- Detector 1's query: the number of `ast.Try` nodes in the tree. -/
def countTryNodes (tree : PyNode) : Nat :=
  (nodesOf tree).countP fun n => isTryNode n

/-- Detector 2's per-handler check: the handler's type is the name
`KeyboardInterrupt`, or a tuple one of whose `ast.Name` elements is
`KeyboardInterrupt`. -/
def handlerCatchesKI : PyNode → Bool
  | .exceptHandler (some t) _ =>
    match t with
    | .ename s => s == "KeyboardInterrupt"
    | .etuple elts =>
      elts.any fun e =>
        match e with
        | .ename s => s == "KeyboardInterrupt"
        | _ => false
    | .eother => false
  | _ => false

/-- Detector 2's tree query: some except handler catches
`KeyboardInterrupt`. -/
def hasKIHandler (tree : PyNode) : Bool :=
  (nodesOf tree).any fun n => handlerCatchesKI n

/-- Detector 4's import query: `import datetime` (alias name in
`("datetime",)`) or `from datetime/time import ...`. -/
def d4FoundImport (tree : PyNode) : Bool :=
  (nodesOf tree).any fun n =>
    match n with
    | .importStmt names => names.any fun a => a == "datetime"
    | .importFrom (some m) _ => m == "datetime" || m == "time"
    | _ => false

/-- Detector 5's config modules: `{"argparse", "click", "configparser", "dotenv"}`. -/
def configImports : List String := ["argparse", "click", "configparser", "dotenv"]

/-- Detector 5's import query.  For `ast.ImportFrom` the source only sets
the flag inside `if node.module == "os"`, which is itself guarded by
`node.module in config_imports or node.module.startswith("os")`; so
`from argparse import ...` does *not* set it, only `from os import ...`
does — translated verbatim. -/
def d5FoundImport (tree : PyNode) : Bool :=
  (nodesOf tree).any fun n =>
    match n with
    | .importStmt names => names.any fun a => configImports.contains a
    | .importFrom (some m) _ =>
      if configImports.contains m || strStarts m "os" then
        m == "os"
      else false
    | _ => false

/-- Detector 7's import query: `import csv/json` or `from csv/json import ...`. -/
def hasFormatImport (tree : PyNode) : Bool :=
  (nodesOf tree).any fun n =>
    match n with
    | .importStmt names => names.any fun a => a == "csv" || a == "json"
    | .importFrom (some m) _ => m == "csv" || m == "json"
    | _ => false

/-- Detector 9's docstring counter: nodes of kind FunctionDef,
AsyncFunctionDef, ClassDef or Module whose first body statement is an
expression statement holding a string constant. -/
def docstringCount (tree : PyNode) : Nat :=
  (nodesOf tree).countP fun n =>
    match n with
    | .module (PyNode.exprStmt ExprKind.constStr :: _) => true
    | .functionDef _ (PyNode.exprStmt ExprKind.constStr :: _) => true
    | .asyncFunctionDef _ (PyNode.exprStmt ExprKind.constStr :: _) => true
    | .classDef _ (PyNode.exprStmt ExprKind.constStr :: _) => true
    | _ => false

end StationMeteo

namespace StationMeteo

/-! ## Files, the repository, and `_parse_file` / `_find_python_files` -/

/-- The state of one target file as the harness can encounter it.
`present text tree` is a readable file: `text` is what `read_text` returns
and `tree` is the outcome of `ast.parse(text)` (`none` when the text raises
`SyntaxError`).  `readFault` is a file whose `read_text` raises (an
undecodable byte sequence, a permission failure); `absent` does not exist. -/
inductive FileState where
  | absent
  | readFault
  | present (text : String) (tree : Option PyNode)

/-- `_parse_file(filepath)`: `None` when the path does not exist; otherwise
read and parse, catching only `SyntaxError` (returned as `None`).  An
exception raised by `read_text` is *not* caught and propagates. -/
def parse_file : FileState → Except PyError (Option (PyNode × String))
  | .absent => .ok none
  | .readFault => .error .readFault
  | .present _ none => .ok none
  | .present text (some tree) => .ok (some (tree, text))

/-- A path relative to the repository root, as its list of components. -/
abbrev PyPath := List String

/-- The repository as the harness sees it: the list of `.py` files that a
recursive `rglob("*.py")` from the root yields, each with its path
components and file state. -/
abbrev Repo := List (PyPath × FileState)

/-- The filter of `_find_python_files`: no path component starts with `.`
and none equals `__pycache__`. -/
def goodPath (p : PyPath) : Bool :=
  !(p.any fun seg => strStarts seg "." || seg == "__pycache__")

/-- `_find_python_files(root)`: every `.py` file under the root whose
relative path survives the hidden/cache filter. -/
def find_python_files (repo : Repo) : Repo :=
  repo.filter fun pf => goodPath pf.1

/-! ## Detectors scoped to the main program (1, 2, 3, 4, 5, 9, 11) -/

/-- Test 1 (`test_error_handling_added`): skip when `_parse_file` returns
`None`; fail when the tree has no `ast.Try` node; pass otherwise. -/
def test_error_handling_added (mainPy : FileState) : Except PyError Verdict :=
  match parse_file mainPy with
  | .error e => .error e
  | .ok none => .ok .skip
  | .ok (some (tree, _)) =>
    if countTryNodes tree == 0 then .ok .fail else .ok .pass

/-- Test 2 (`test_keyboard_interrupt_handling`): skip on `None`; pass iff
some except handler's type is (or, in a tuple, includes) the name
`KeyboardInterrupt`. -/
def test_keyboard_interrupt_handling (mainPy : FileState) : Except PyError Verdict :=
  match parse_file mainPy with
  | .error e => .error e
  | .ok none => .ok .skip
  | .ok (some (tree, _)) =>
    if hasKIHandler tree then .ok .pass else .ok .fail

/-- Test 3 (`test_data_validation_present`): skip on `None`; strip comments
and docstrings from the content (`tok` is the tokenizer's outcome on that
content) and search the four validation patterns case-insensitively.  An
exception escaping the stripping helper escapes the detector. -/
def test_data_validation_present (mainPy : FileState) (tok : TokOutcome) :
    Except PyError Verdict :=
  match parse_file mainPy with
  | .error e => .error e
  | .ok none => .ok .skip
  | .ok (some (_, content)) =>
    match strip_comments_and_docstrings content tok with
    | .error e => .error e
    | .ok stripped => if d3AnyPattern stripped then .ok .pass else .ok .fail

/-- Test 4 (`test_timestamp_added`): skip on `None`; pass iff a datetime
module import is found in the tree or the raw-text regex fallback matches. -/
def test_timestamp_added (mainPy : FileState) : Except PyError Verdict :=
  match parse_file mainPy with
  | .error e => .error e
  | .ok none => .ok .skip
  | .ok (some (tree, content)) =>
    if d4FoundImport tree || d4TimeRegex content then .ok .pass else .ok .fail

/-- Test 5 (`test_configuration_externalized`): skip on `None`; pass iff a
config-module import is found, or `os.environ`/`os.getenv` occurs in the raw
text, or at least 3 lines match the ALL-UPPERCASE constant regex. -/
def test_configuration_externalized (mainPy : FileState) : Except PyError Verdict :=
  match parse_file mainPy with
  | .error e => .error e
  | .ok none => .ok .skip
  | .ok (some (tree, content)) =>
    if d5FoundImport tree || d5EnvRegex content ||
        decide (3 ≤ countUppercaseConstants content) then
      .ok .pass
    else .ok .fail

/-- Test 9 (`test_documentation_improved`): skip on `None`; fail iff the
docstring count does not exceed the baseline count of 2. -/
def test_documentation_improved (mainPy : FileState) : Except PyError Verdict :=
  match parse_file mainPy with
  | .error e => .error e
  | .ok none => .ok .skip
  | .ok (some (tree, _)) =>
    if docstringCount tree ≤ 2 then .ok .fail else .ok .pass

/-- Test 11 (`test_timer_pattern`): skip on `None`; pass iff the raw text
contains a monotonic-clock call.  The source also computes
`has_interval = re.search(r'\w+\s*-\s*\w+\s*>=?\s*\w+', content)`
(modelled by `d11IntervalPattern`) but never uses it: the verdict depends
on `has_monotonic` alone. -/
def test_timer_pattern (mainPy : FileState) : Except PyError Verdict :=
  match parse_file mainPy with
  | .error e => .error e
  | .ok none => .ok .skip
  | .ok (some (_, content)) =>
    if d11HasMonotonic content then .ok .pass else .ok .fail

/-! ## Detectors scoped to the tree (6, 7, 8, 10) -/

/-- Top-level `.py` files of the root: `REPO_ROOT.glob("*.py")`
(non-recursive). -/
def rootGlobPy (repo : Repo) : Repo :=
  repo.filter fun pf => pf.1.length == 1

/-- Direct `.py` children of the sensors directory:
`SENSORS_DIR.glob("*.py")`. -/
def sensorsGlobPy (repo : Repo) : Repo :=
  repo.filter fun pf => pf.1.head? == some "sensors" && pf.1.length == 2

/-- All `.py` files under the sensors directory:
`SENSORS_DIR.rglob("*.py")`.  No hidden/`__pycache__` filtering is applied
here (unlike `_find_python_files`). -/
def sensorsRglobPy (repo : Repo) : Repo :=
  repo.filter fun pf => pf.1.head? == some "sensors" && 2 ≤ pf.1.length

/-- Detector 6's file collection: the two glob lists, then the recursive
sensors walk appending only paths not already collected. -/
def d6CollectFiles (repo : Repo) : Repo :=
  (sensorsRglobPy repo).foldl
    (fun acc f => if acc.any (fun g => g.1 == f.1) then acc else acc ++ [f])
    (rootGlobPy repo ++ sensorsGlobPy repo)

/-- Detector 6's per-file check: `read_text`, with *every* exception caught
(`except Exception: continue`), then the fragment regex over the raw text. -/
def d6FileFound (f : FileState) : Bool :=
  match f with
  | .present content _ => d6FragAny content
  | _ => false

/-- Test 6 (`test_additional_sensor_integration`): pass iff some collected
file's raw text matches the import regex for some recognized sensor
fragment.  This detector cannot raise: its only file operation catches all
exceptions. -/
def test_additional_sensor_integration (repo : Repo) : Except PyError Verdict :=
  .ok (if (d6CollectFiles repo).any (fun pf => d6FileFound pf.2) then .pass else .fail)

/-- Detector 7's per-file evidence, given a parsed file: the strict pairing
(csv/json import AND the file-write regex) or the looser pairing of the
csv/json import AND the write/dump/save/append/fichier/file vocabulary. -/
def persistenceEvidence (tree : PyNode) (content : String) : Bool :=
  (hasFormatImport tree && hasFileWriteRegex content) ||
  (hasFormatImport tree && d7LooseVocab content)

/-- Detector 7's scan loop: `_parse_file` each file (an uncaught read error
propagates), skip files returning `None`, stop at the first file with
persistence evidence. -/
def scanPersistence : List FileState → Except PyError Bool
  | [] => .ok false
  | f :: fs =>
    match parse_file f with
    | .error e => .error e
    | .ok none => scanPersistence fs
    | .ok (some (tree, content)) =>
      if persistenceEvidence tree content then .ok true else scanPersistence fs

/-- Test 7 (`test_data_persistence`): run the scan over every file of
`_find_python_files(REPO_ROOT)`; pass iff evidence was found. -/
def test_data_persistence (repo : Repo) : Except PyError Verdict :=
  match scanPersistence ((find_python_files repo).map fun pf => pf.2) with
  | .error e => .error e
  | .ok b => .ok (if b then .pass else .fail)

/-- Test 8 (`test_tests_written`): fail when the tests directory is missing
or when its `test_*.py` glob contains nothing besides `test_instructor.py`.
`testGlob` is the name list `tests/` yields for `glob("test_*.py")`. -/
def test_tests_written (testsDirExists : Bool) (testGlob : List String) :
    Except PyError Verdict :=
  if !testsDirExists then .ok .fail
  else if (testGlob.filter fun n => n != "test_instructor.py").isEmpty then
    .ok .fail
  else .ok .pass

/-- The fixed baseline directory set of detector 10. -/
def baseDirs : List String :=
  [".github", "sensors", "tests", "data", "__pycache__", ".venv", ".git"]

/-- Test 10 (`test_code_modularization`).  `sensorsGlob` is the name list of
`SENSORS_DIR.glob("*.py")` (empty when the directory is missing),
`rootEntries` the name/is-directory list of `REPO_ROOT.iterdir()`, and
`rootPyGlob` the name list of `REPO_ROOT.glob("*.py")`.  Pass iff a
non-baseline sensors file, a new top-level directory, or a new root `.py`
file exists. -/
def test_code_modularization (sensorsGlob : List String)
    (rootEntries : List (String × Bool)) (rootPyGlob : List String) :
    Except PyError Verdict :=
  let newSensorFiles := sensorsGlob.filter fun n =>
    n != "__init__.py" && n != "aht20_sensor.py"
  let newDirs := rootEntries.filter fun e =>
    e.2 && !baseDirs.contains e.1 && !(strStarts e.1 ".")
  let newRootPy := rootPyGlob.filter fun n => n != "main.py"
  if !newSensorFiles.isEmpty || !newDirs.isEmpty || !newRootPy.isEmpty then
    .ok .pass
  else .ok .fail

end StationMeteo


namespace StationMeteo

/-! ## The embedded baseline repository: raw file texts

For each file of the unmodified baseline repository, `…Lines` is its exact
list of lines and `…Text` their newline-join (a trailing empty line element
reproduces a trailing newline). -/

/-- The lines of `main.py`. -/
def mainPyLines : List String := [
"# /// script",
"# requires-python = \">=3.11\"",
"# dependencies = [\"adafruit-circuitpython-ahtx0\", \"adafruit-blinka\", \"RPi.GPIO\"]",
"# ///",
"\"\"\"",
"Station météo basique avec capteur AHT20",
"Version minimale - À améliorer par les étudiants",
"",
"LACUNES INTENTIONNELLES :",
"1. Pas de gestion d\x27erreurs si le capteur se déconnecte",
"2. Pas de validation des plages de valeurs",
"3. Affichage brut sans formatage ni unités claires",
"4. Pas d\x27horodatage des mesures",
"5. Fréquence codée en dur (pas configurable)",
"6. Pas de gestion de Ctrl+C propre",
"7. Code monolithique (difficile d\x27ajouter des capteurs)",
"8. Documentation minimale",
"\"\"\"",
"import time",
"import board",
"import adafruit_ahtx0",
"",
"",
"def main():",
"    \"\"\"Point d\x27entrée principal de la station météo.\"\"\"",
"    # Initialisation I²C et capteur",
"    i2c = board.I2C()",
"    sensor = adafruit_ahtx0.AHTx0(i2c)",
"",
"    print(\"Station météo - AHT20\")",
"    print(\"Ctrl+C pour arrêter\")",
"    print()",
"",
"    # Boucle de lecture (pas de gestion KeyboardInterrupt)",
"    while True:",
"        # Lecture des données (pas de try/except)",
"        temperature = sensor.temperature",
"        humidity = sensor.relative_humidity",
"",
"        # Affichage brut (pas de formatage, pas d\x27unités claires, pas de timestamp)",
"        print(f\"Température: \x7btemperature\x7d\")",
"        print(f\"Humidité: \x7bhumidity\x7d\")",
"        print()",
"",
"        # Délai fixe (pas configurable)",
"        time.sleep(5)",
"",
"",
"if __name__ == \"__main__\":",
"    main()",
"",
""
]

/-- Exact content of `main.py`. -/
def mainPyText : String := joinLines mainPyLines

/-- The lines of `sensors/aht20_sensor.py`. -/
def aht20SensorLines : List String := [
"\"\"\"",
"Module pour la lecture du capteur AHT20.",
"",
"Ce module fournit une interface basique pour le capteur AHT20.",
"Version minimale - A ameliorer par les etudiants.",
"\"\"\"",
"import board",
"import adafruit_ahtx0",
"",
"",
"def init_sensor():",
"    \"\"\"",
"    Initialise le capteur AHT20 sur le bus I2C.",
"",
"    Returns:",
"        AHTx0: Instance du capteur initialise",
"",
"    LACUNES :",
"    - Pas de gestion d\x27erreur si le capteur n\x27est pas detecte",
"    - Pas de verification de l\x27adresse I2C",
"    \"\"\"",
"    i2c = board.I2C()",
"    return adafruit_ahtx0.AHTx0(i2c)",
"",
"",
"def read_temperature(sensor):",
"    \"\"\"",
"    Lit la temperature du capteur.",
"",
"    Args:",
"        sensor (AHTx0): Instance du capteur",
"",
"    Returns:",
"        float: Temperature en Celsius",
"",
"    LACUNES :",
"    - Pas de validation de la plage (-40 a +120 C)",
"    - Pas de gestion d\x27erreur de lecture",
"    \"\"\"",
"    return sensor.temperature",
"",
"",
"def read_humidity(sensor):",
"    \"\"\"",
"    Lit l\x27humidite relative du capteur.",
"",
"    Args:",
"        sensor (AHTx0): Instance du capteur",
"",
"    Returns:",
"        float: Humidite relative en pourcentage (0-100%)",
"",
"    LACUNES :",
"    - Pas de validation de la plage (0-100%)",
"    - Pas de gestion d\x27erreur de lecture",
"    \"\"\"",
"    return sensor.relative_humidity",
"",
""
]

/-- Exact content of `sensors/aht20_sensor.py`. -/
def aht20SensorText : String := joinLines aht20SensorLines

/-- The lines of `ressources/snippets/as7341_weather_analysis.py`. -/
def as7341Lines : List String := [
"# /// script",
"# requires-python = \">=3.9\"",
"# dependencies = [\"adafruit-circuitpython-as7341\", \"adafruit-blinka\"]",
"# ///",
"\"\"\"",
"Exemple d\x27utilisation du spectromètre AS7341 pour l\x27analyse météorologique.",
"",
"Catégorie A — Acquisition de données (avancée)",
"Difficulté : Moyenne (simplifié par la bibliothèque Adafruit)",
"",
"Ce snippet montre comment:",
"- Initialiser le spectromètre AS7341",
"- Lire les 11 canaux spectraux (8 visibles + NIR + clear + flicker)",
"- Calculer un indice de couvert nuageux (cloud index)",
"- Estimer l\x27intensité UV indirecte",
"- Détecter l\x27aube/crépuscule par variation spectrale",
"",
"PERTINENCE MÉTÉO EXCELLENTE :",
"- Les nuages modifient le spectre lumineux (diffusion bleue)",
"- Le spectre évolue du lever au coucher du soleil",
"- Détection UV via canaux violet (415nm) et indigo (445nm)",
"- Classification conditions : ciel clair / nuageux / orageux",
"\"\"\"",
"",
"import board",
"from adafruit_as7341 import AS7341",
"",
"",
"def init_spectrometer():",
"    \"\"\"",
"    Initialise le spectromètre AS7341.",
"",
"    Returns:",
"        AS7341: Instance du spectromètre configuré",
"    \"\"\"",
"    i2c = board.I2C()",
"    sensor = AS7341(i2c)",
"",
"    # Configuration optionnelle (la bibliothèque gère les defaults)",
"    # sensor.atime = 100  # Temps d\x27intégration",
"    # sensor.astep = 999  # Nombre de steps",
"    # sensor.gain = 8     # Gain du capteur",
"",
"    return sensor",
"",
"",
"def read_spectrum(sensor):",
"    \"\"\"",
"    Lit tous les canaux spectraux du AS7341.",
"",
"    Args:",
"        sensor (AS7341): Instance du spectromètre",
"",
"    Returns:",
"        dict: Dictionnaire avec tous les canaux",
"    \"\"\"",
"    return \x7b",
"        \"violet\": sensor.channel_415nm,      # 415nm",
"        \"indigo\": sensor.channel_445nm,      # 445nm",
"        \"blue\": sensor.channel_480nm,        # 480nm",
"        \"cyan\": sensor.channel_515nm,        # 515nm",
"        \"green\": sensor.channel_555nm,       # 555nm",
"        \"yellow\": sensor.channel_590nm,      # 590nm",
"        \"orange\": sensor.channel_630nm,      # 630nm",
"        \"red\": sensor.channel_680nm,         # 680nm",
"        \"nir\": sensor.channel_nir,           # Near Infrared",
"        \"clear\": sensor.channel_clear,       # Lumière totale",
"    \x7d",
"",
"",
"def calculate_cloud_index(spectrum):",
"    \"\"\"",
"    Calcule un indice de couvert nuageux basé sur le ratio bleu/rouge.",
"",
"    Les nuages diffusent davantage les courtes longueurs d\x27onde (bleu)",
"    que les longues (rouge), ce qui augmente le ratio bleu/rouge.",
"",
"    Args:",
"        spectrum (dict): Données spectrales",
"",
"    Returns:",
"        dict: Indice et classification",
"    \"\"\"",
"    blue = spectrum[\"blue\"]",
"    red = spectrum[\"red\"]",
"",
"    if red == 0:",
"        cloud_index = 0",
"    else:",
"        cloud_index = blue / red",
"",
"    # Classification basée sur des seuils empiriques",
"    if cloud_index > 1.3:",
"        classification = \"Très nuageux\"",
"    elif cloud_index > 1.1:",
"        classification = \"Nuageux\"",
"    elif cloud_index > 0.9:",
"        classification = \"Partiellement nuageux\"",
"    else:",
"        classification = \"Ciel clair\"",
"",
"    return \x7b",
"        \"cloud_index\": cloud_index,",
"        \"classification\": classification",
"    \x7d",
"",
"",
"def estimate_uv_index(spectrum):",
"    \"\"\"",
"    Estime l\x27intensité UV indirecte via les canaux violet et indigo.",
"",
"    Les canaux 415nm (violet) et 445nm (indigo) sont sensibles aux UV-A.",
"    Cette estimation est approximative mais utile pour détecter l\x27exposition.",
"",
"    Args:",
"        spectrum (dict): Données spectrales",
"",
"    Returns:",
"        dict: Estimation UV et niveau d\x27exposition",
"    \"\"\"",
"    uv_estimate = (spectrum[\"violet\"] + spectrum[\"indigo\"]) / 2",
"",
"    # Classification basée sur des seuils relatifs",
"    if uv_estimate > 800:",
"        level = \"Très élevé\"",
"    elif uv_estimate > 600:",
"        level = \"Élevé\"",
"    elif uv_estimate > 400:",
"        level = \"Modéré\"",
"    elif uv_estimate > 200:",
"        level = \"Faible\"",
"    else:",
"        level = \"Très faible\"",
"",
"    return \x7b",
"        \"uv_estimate\": uv_estimate,",
"        \"level\": level",
"    \x7d",
"",
"",
"def detect_dawn_dusk(spectrum):",
"    \"\"\"",
"    Détecte l\x27aube ou le crépuscule par variation du ratio violet/rouge.",
"",
"    Le spectre change rapidement au lever/coucher du soleil.",
"",
"    Args:",
"        spectrum (dict): Données spectrales",
"",
"    Returns:",
"        dict: Indicateur aube/crépuscule",
"    \"\"\"",
"    violet = spectrum[\"violet\"]",
"    red = spectrum[\"red\"]",
"",
"    if red == 0:",
"        dawn_index = 0",
"    else:",
"        dawn_index = violet / red",
"",
"    is_dawn_dusk = dawn_index > 0.3 and dawn_index < 0.7",
"",
"    return \x7b",
"        \"dawn_index\": dawn_index,",
"        \"is_dawn_dusk\": is_dawn_dusk",
"    \x7d",
"",
"",
"# Exemple d\x27utilisation",
"if __name__ == \"__main__\":",
"    import time",
"",
"    sensor = init_spectrometer()",
"    print(\"Station météo - Analyse spectrale AS7341\\n\")",
"",
"    while True:",
"        spectrum = read_spectrum(sensor)",
"        cloud = calculate_cloud_index(spectrum)",
"        uv = estimate_uv_index(spectrum)",
"        dawn = detect_dawn_dusk(spectrum)",
"",
"        print(\"=== Analyse Spectrale ===\")",
"        print(f\"Lumière totale : \x7bspectrum[\x27clear\x27]\x7d\")",
"        print(f\"Bleu : \x7bspectrum[\x27blue\x27]\x7d | Rouge : \x7bspectrum[\x27red\x27]\x7d\")",
"        print()",
"",
"        print(\"--- Conditions météo ---\")",
"        print(f\"Indice nuageux : \x7bcloud[\x27cloud_index\x27]:.2f\x7d\")",
"        print(f\"Classification : \x7bcloud[\x27classification\x27]\x7d\")",
"        print()",
"",
"        print(\"--- Estimation UV ---\")",
"        print(f\"Intensité UV : \x7buv[\x27uv_estimate\x27]:.0f\x7d\")",
"        print(f\"Niveau : \x7buv[\x27level\x27]\x7d\")",
"        print()",
"",
"        print(\"--- Détection aube/crépuscule ---\")",
"        print(f\"Indice : \x7bdawn[\x27dawn_index\x27]:.2f\x7d\")",
"        if dawn[\x27is_dawn_dusk\x27]:",
"            print(\"Phase aube/crepuscule detectee\")",
"        print()",
"",
"        print(\"-\" * 50 + \"\\n\")",
"        time.sleep(10)",
"",
""
]

/-- Exact content of `ressources/snippets/as7341_weather_analysis.py`. -/
def as7341Text : String := joinLines as7341Lines

/-- The lines of `ressources/snippets/csv_logging.py`. -/
def csvLoggingLines : List String := [
"# /// script",
"# requires-python = \">=3.9\"",
"# dependencies = [\"adafruit-circuitpython-ahtx0\", \"adafruit-blinka\"]",
"# ///",
"\"\"\"",
"Exemple de journalisation des données dans un fichier CSV.",
"",
"Catégorie B — Traitement et logique",
"Difficulté : Faible",
"",
"Ce snippet montre comment:",
"- Créer un fichier CSV avec en-têtes",
"- Horodater les mesures (format ISO 8601)",
"- Enregistrer les données de façon persistante",
"- Gérer la rotation des fichiers (nouveau fichier par jour)",
"\"\"\"",
"",
"import csv",
"import time",
"from datetime import datetime",
"from pathlib import Path",
"import board",
"import adafruit_ahtx0",
"",
"",
"class CSVDataLogger:",
"    \"\"\"",
"    Gestionnaire de journalisation CSV pour la station météo.",
"    \"\"\"",
"",
"    def __init__(self, data_dir: str = \"data\", rotation: str = \"daily\"):",
"        \"\"\"",
"        Initialise le logger CSV.",
"",
"        Args:",
"            data_dir (str): Répertoire de stockage des fichiers CSV",
"            rotation (str): Stratégie de rotation (\"none\", \"daily\", \"weekly\")",
"        \"\"\"",
"        self.data_dir = Path(data_dir)",
"        self.data_dir.mkdir(exist_ok=True)",
"        self.rotation = rotation",
"        self.current_file = None",
"        self.csv_writer = None",
"        self.file_handle = None",
"",
"    def _get_filename(self) -> Path:",
"        \"\"\"",
"        Génère le nom du fichier CSV selon la stratégie de rotation.",
"",
"        Returns:",
"            Path: Chemin du fichier CSV",
"        \"\"\"",
"        if self.rotation == \"none\":",
"            return self.data_dir / \"meteo_data.csv\"",
"",
"        elif self.rotation == \"daily\":",
"            date_str = datetime.now().strftime(\"%Y-%m-%d\")",
"            return self.data_dir / f\"meteo_data_\x7bdate_str\x7d.csv\"",
"",
"        elif self.rotation == \"weekly\":",
"            week_str = datetime.now().strftime(\"%Y-W%W\")",
"            return self.data_dir / f\"meteo_data_\x7bweek_str\x7d.csv\"",
"",
"        else:",
"            raise ValueError(f\"Rotation \x27\x7bself.rotation\x7d\x27 non supportée\")",
"",
"    def _ensure_file_open(self):",
"        \"\"\"",
"        S\x27assure que le fichier CSV est ouvert et prêt à écrire.",
"        Crée le fichier et les en-têtes si nécessaire.",
"        \"\"\"",
"        target_file = self._get_filename()",
"",
"        # Si le fichier a changé (rotation), fermer l\x27ancien",
"        if self.current_file != target_file:",
"            if self.file_handle:",
"                self.file_handle.close()",
"",
"            # Vérifier si le fichier existe déjà (pour savoir si on écrit les en-têtes)",
"            file_exists = target_file.exists()",
"",
"            # Ouvrir le nouveau fichier en mode append",
"            self.file_handle = open(target_file, \x27a\x27, newline=\x27\x27)",
"            self.csv_writer = csv.writer(self.file_handle)",
"            self.current_file = target_file",
"",
"            # Écrire les en-têtes si c\x27est un nouveau fichier",
"            if not file_exists:",
"                self._write_headers()",
"",
"    def _write_headers(self):",
"        \"\"\"Écrit les en-têtes du fichier CSV.\"\"\"",
"        headers = [\"timestamp\", \"timestamp_iso\", \"temperature_c\", \"humidity_percent\"]",
"        self.csv_writer.writerow(headers)",
"        self.file_handle.flush()",
"",
"    def log_data(self, temperature: float, humidity: float):",
"        \"\"\"",
"        Enregistre une mesure dans le fichier CSV.",
"",
"        Args:",
"            temperature (float): Température en Celsius",
"            humidity (float): Humidité relative en pourcentage",
"        \"\"\"",
"        self._ensure_file_open()",
"",
"        # Horodatage",
"        timestamp_unix = time.time()",
"        timestamp_iso = datetime.fromtimestamp(timestamp_unix).isoformat()",
"",
"        # Écriture de la ligne",
"        self.csv_writer.writerow([",
"            timestamp_unix,",
"            timestamp_iso,",
"            f\"\x7btemperature:.2f\x7d\",",
"            f\"\x7bhumidity:.2f\x7d\"",
"        ])",
"",
"        # Forcer l\x27écriture sur disque",
"        self.file_handle.flush()",
"",
"    def close(self):",
"        \"\"\"Ferme proprement le fichier CSV.\"\"\"",
"        if self.file_handle:",
"            self.file_handle.close()",
"            self.file_handle = None",
"            self.csv_writer = None",
"            self.current_file = None",
"",
"",
"# Exemple d\x27utilisation",
"if __name__ == \"__main__\":",
"    # Initialisation",
"    i2c = board.I2C()",
"    sensor = adafruit_ahtx0.AHTx0(i2c)",
"    logger = CSVDataLogger(data_dir=\"data\", rotation=\"daily\")",
"",
"    print(\"Station météo - Journalisation CSV\")",
"    print(f\"Fichier : \x7blogger._get_filename()\x7d\")",
"    print(\"Ctrl+C pour arrêter\\n\")",
"",
"    try:",
"        while True:",
"            # Lecture des données",
"            temperature = sensor.temperature",
"            humidity = sensor.relative_humidity",
"",
"            # Enregistrement dans le CSV",
"            logger.log_data(temperature, humidity)",
"",
"            # Affichage console",
"            timestamp = datetime.now().strftime(\"%Y-%m-%d %H:%M:%S\")",
"            print(f\"[\x7btimestamp\x7d] Temp: \x7btemperature:.1f\x7dC | Hum: \x7bhumidity:.1f\x7d% | Enregistre\")",
"",
"            time.sleep(5)",
"",
"    except KeyboardInterrupt:",
"        print(\"\\nArret demande par l\x27utilisateur\")",
"",
"    finally:",
"        logger.close()",
"        print(\"Fichier CSV ferme proprement\")",
"",
""
]

/-- Exact content of `ressources/snippets/csv_logging.py`. -/
def csvLoggingText : String := joinLines csvLoggingLines

/-- The lines of `ressources/snippets/error_handling.py`. -/
def errorHandlingLines : List String := [
"# /// script",
"# requires-python = \">=3.9\"",
"# dependencies = [\"adafruit-circuitpython-ahtx0\", \"adafruit-blinka\"]",
"# ///",
"\"\"\"",
"Exemple de gestion d\x27erreurs robuste pour la station météo.",
"",
"Catégorie C — Qualité du code",
"Difficulté : Moyenne",
"",
"Ce snippet montre comment:",
"- Gérer les exceptions lors de l\x27initialisation du capteur",
"- Gérer les erreurs de lecture I²C",
"- Implémenter un mécanisme de reconnexion automatique",
"- Gérer proprement l\x27interruption clavier (Ctrl+C)",
"- Logger les erreurs de façon structurée",
"\"\"\"",
"",
"import time",
"import logging",
"from typing import Optional",
"import board",
"import adafruit_ahtx0",
"",
"# Configuration du logging",
"logging.basicConfig(",
"    level=logging.INFO,",
"    format=\x27%(asctime)s - %(levelname)s - %(message)s\x27,",
"    handlers=[",
"        logging.FileHandler(\x27station_meteo.log\x27),",
"        logging.StreamHandler()",
"    ]",
")",
"logger = logging.getLogger(__name__)",
"",
"",
"class SensorConnectionError(Exception):",
"    \"\"\"Exception levée lorsque le capteur ne peut pas être initialisé.\"\"\"",
"    pass",
"",
"",
"class SensorReadError(Exception):",
"    \"\"\"Exception levée lors d\x27une erreur de lecture du capteur.\"\"\"",
"    pass",
"",
"",
"def init_sensor_with_retry(max_retries: int = 3, retry_delay: float = 2.0):",
"    \"\"\"",
"    Initialise le capteur AHT20 avec mécanisme de retry.",
"",
"    Args:",
"        max_retries (int): Nombre maximum de tentatives",
"        retry_delay (float): Délai entre les tentatives (secondes)",
"",
"    Returns:",
"        AHTx0: Instance du capteur, ou None si échec",
"",
"    Raises:",
"        SensorConnectionError: Si toutes les tentatives échouent",
"    \"\"\"",
"    for attempt in range(1, max_retries + 1):",
"        try:",
"            logger.info(f\"Tentative \x7battempt\x7d/\x7bmax_retries\x7d d\x27initialisation du capteur AHT20...\")",
"            i2c = board.I2C()",
"            sensor = adafruit_ahtx0.AHTx0(i2c)",
"            logger.info(\"Capteur AHT20 initialise avec succes\")",
"            return sensor",
"",
"        except ValueError as e:",
"            logger.error(f\"ERREUR initialisation : \x7be\x7d\")",
"            if attempt < max_retries:",
"                logger.info(f\"Nouvelle tentative dans \x7bretry_delay\x7ds...\")",
"                time.sleep(retry_delay)",
"            else:",
"                raise SensorConnectionError(",
"                    f\"Impossible d\x27initialiser le capteur après \x7bmax_retries\x7d tentatives\"",
"                ) from e",
"",
"        except RuntimeError as e:",
"            logger.error(f\"ERREUR I2C : \x7be\x7d\")",
"            if attempt < max_retries:",
"                logger.info(f\"Nouvelle tentative dans \x7bretry_delay\x7ds...\")",
"                time.sleep(retry_delay)",
"            else:",
"                raise SensorConnectionError(",
"                    f\"Erreur I²C persistante après \x7bmax_retries\x7d tentatives\"",
"                ) from e",
"",
"",
"def read_sensor_safe(sensor) -> Optional[dict]:",
"    \"\"\"",
"    Lit les données du capteur avec gestion d\x27erreurs.",
"",
"    Args:",
"        sensor: Instance du capteur AHT20",
"",
"    Returns:",
"        dict: Données lues (température, humidité), ou None si erreur",
"",
"    Raises:",
"        SensorReadError: Si la lecture échoue",
"    \"\"\"",
"    try:",
"        temperature = sensor.temperature",
"        humidity = sensor.relative_humidity",
"",
"        # Validation des plages de valeurs",
"        if not (-40 <= temperature <= 120):",
"            logger.warning(f\"ATTENTION Temperature hors plage : \x7btemperature\x7dC\")",
"            raise SensorReadError(f\"Température invalide : \x7btemperature\x7d°C\")",
"",
"        if not (0 <= humidity <= 100):",
"            logger.warning(f\"ATTENTION Humidite hors plage : \x7bhumidity\x7d%\")",
"            raise SensorReadError(f\"Humidité invalide : \x7bhumidity\x7d%\")",
"",
"        return \x7b",
"            \"temperature\": temperature,",
"            \"humidity\": humidity,",
"            \"timestamp\": time.time()",
"        \x7d",
"",
"    except OSError as e:",
"        logger.error(f\"ERREUR I2C lors de la lecture : \x7be\x7d\")",
"        raise SensorReadError(\"Erreur de communication I²C\") from e",
"",
"    except RuntimeError as e:",
"        logger.error(f\"ERREUR runtime lors de la lecture : \x7be\x7d\")",
"        raise SensorReadError(\"Erreur runtime du capteur\") from e",
"",
"",
"def main_loop_with_error_handling():",
"    \"\"\"",
"    Boucle principale avec gestion d\x27erreurs complète.",
"",
"    Gère :",
"    - Initialisation avec retry",
"    - Lecture avec gestion d\x27erreurs",
"    - Reconnexion automatique si le capteur se déconnecte",
"    - Interruption propre (Ctrl+C)",
"    \"\"\"",
"    sensor = None",
"    read_interval = 5.0  # Configurable",
"    reconnect_attempts = 0",
"    max_reconnect_attempts = 5",
"",
"    logger.info(\"Demarrage de la station meteo...\")",
"",
"    try:",
"        # Initialisation initiale",
"        sensor = init_sensor_with_retry()",
"",
"        logger.info(f\"Lecture des donnees toutes les \x7bread_interval\x7ds\")",
"        logger.info(\"Appuyez sur Ctrl+C pour arrêter proprement\\n\")",
"",
"        while True:",
"            try:",
"                # Lecture des données",
"                data = read_sensor_safe(sensor)",
"",
"                # Affichage (succès de lecture = reset du compteur de reconnexion)",
"                reconnect_attempts = 0",
"                print(f\"Température : \x7bdata[\x27temperature\x27]:.1f\x7d°C\")",
"                print(f\"Humidité    : \x7bdata[\x27humidity\x27]:.1f\x7d%\")",
"                print()",
"",
"            except SensorReadError as e:",
"                logger.error(f\"Erreur de lecture : \x7be\x7d\")",
"                reconnect_attempts += 1",
"",
"                if reconnect_attempts >= max_reconnect_attempts:",
"                    logger.critical(\"Trop d\x27echecs consecutifs, arret du programme\")",
"                    break",
"",
"                # Tentative de reconnexion",
"                logger.info(\"Tentative de reconnexion au capteur...\")",
"                try:",
"                    sensor = init_sensor_with_retry(max_retries=2, retry_delay=1.0)",
"                    logger.info(\"Reconnexion reussie\")",
"                    reconnect_attempts = 0",
"                except SensorConnectionError:",
"                    logger.error(\"Reconnexion echouee\")",
"",
"            # Délai avant prochaine lecture",
"            time.sleep(read_interval)",
"",
"    except KeyboardInterrupt:",
"        logger.info(\"\\nArret demande par l\x27utilisateur (Ctrl+C)\")",
"",
"    except SensorConnectionError as e:",
"        logger.critical(f\"Impossible d\x27initialiser le capteur : \x7be\x7d\")",
"        logger.info(\"Vérifiez la connexion I²C avec : i2cdetect -y 1\")",
"        return 1",
"",
"    except Exception as e:",
"        logger.critical(f\"Erreur inattendue : \x7be\x7d\", exc_info=True)",
"        return 1",
"",
"    finally:",
"        logger.info(\"Arret propre de la station meteo\")",
"",
"    return 0",
"",
"",
"if __name__ == \"__main__\":",
"    exit(main_loop_with_error_handling())",
"",
""
]

/-- Exact content of `ressources/snippets/error_handling.py`. -/
def errorHandlingText : String := joinLines errorHandlingLines

/-- The lines of `ressources/snippets/hts221_cross_validation.py`. -/
def hts221Lines : List String := [
"# /// script",
"# requires-python = \">=3.9\"",
"# dependencies = [\"adafruit-circuitpython-ahtx0\", \"adafruit-circuitpython-hts221\", \"adafruit-blinka\"]",
"# ///",
"\"\"\"",
"Exemple d\x27ajout du capteur HTS221 pour validation croisee avec le AHT20 de base.",
"",
"Categorie A -- Acquisition de donnees",
"Difficulte : Moyenne",
"",
"Ce snippet montre comment:",
"- Initialiser le capteur HTS221 (adresse I2C 0x5F) en complement du AHT20",
"- Lire temperature et humidite des deux capteurs",
"- Comparer les valeurs du HTS221 avec celles du AHT20 (capteur de base)",
"- Detecter les ecarts significatifs entre capteurs",
"\"\"\"",
"",
"import board",
"import adafruit_ahtx0",
"from adafruit_hts221 import HTS221",
"",
"",
"def init_sensors():",
"    \"\"\"",
"    Initialise les deux capteurs sur le meme bus I2C.",
"",
"    Returns:",
"        tuple: (AHTx0, HTS221) instances des capteurs",
"    \"\"\"",
"    i2c = board.I2C()",
"    aht20 = adafruit_ahtx0.AHTx0(i2c)  # Adresse 0x38 (capteur de base)",
"    hts221 = HTS221(i2c)                # Adresse 0x5F (capteur ajoute)",
"    return aht20, hts221",
"",
"",
"def read_both_sensors(aht20, hts221):",
"    \"\"\"",
"    Lit les donnees des deux capteurs.",
"",
"    Args:",
"        aht20: Capteur principal (base)",
"        hts221: Capteur secondaire (ajoute)",
"",
"    Returns:",
"        dict: Dictionnaire avec les mesures des deux capteurs",
"    \"\"\"",
"    return \x7b",
"        \"aht20\": \x7b",
"            \"temperature\": aht20.temperature,",
"            \"humidity\": aht20.relative_humidity",
"        \x7d,",
"        \"hts221\": \x7b",
"            \"temperature\": hts221.temperature,",
"            \"humidity\": hts221.relative_humidity",
"        \x7d",
"    \x7d",
"",
"",
"def compare_sensors(aht20, hts221, temp_threshold=2.0, hum_threshold=5.0):",
"    \"\"\"",
"    Compare les mesures des deux capteurs et detecte les ecarts.",
"",
"    Args:",
"        aht20: Capteur principal (base)",
"        hts221: Capteur secondaire (ajoute)",
"        temp_threshold (float): Seuil d\x27alerte temperature (C)",
"        hum_threshold (float): Seuil d\x27alerte humidite (%)",
"",
"    Returns:",
"        dict: Resultat de la comparaison",
"    \"\"\"",
"    data = read_both_sensors(aht20, hts221)",
"",
"    temp_diff = abs(data[\"aht20\"][\"temperature\"] - data[\"hts221\"][\"temperature\"])",
"    hum_diff = abs(data[\"aht20\"][\"humidity\"] - data[\"hts221\"][\"humidity\"])",
"",
"    return \x7b",
"        \"data\": data,",
"        \"differences\": \x7b",
"            \"temperature\": temp_diff,",
"            \"humidity\": hum_diff",
"        \x7d,",
"        \"alerts\": \x7b",
"            \"temperature_alert\": temp_diff > temp_threshold,",
"            \"humidity_alert\": hum_diff > hum_threshold",
"        \x7d",
"    \x7d",
"",
"",
"# Exemple d\x27utilisation",
"if __name__ == \"__main__\":",
"    import time",
"",
"    aht20, hts221 = init_sensors()",
"    print(\"Station meteo - Comparaison AHT20 vs HTS221\\n\")",
"",
"    while True:",
"        result = compare_sensors(aht20, hts221)",
"",
"        print(\"--- Mesures ---\")",
"        print(f\"AHT20  : \x7bresult[\x27data\x27][\x27aht20\x27][\x27temperature\x27]:.1f\x7dC, \"",
"              f\"\x7bresult[\x27data\x27][\x27aht20\x27][\x27humidity\x27]:.1f\x7d%\")",
"        print(f\"HTS221 : \x7bresult[\x27data\x27][\x27hts221\x27][\x27temperature\x27]:.1f\x7dC, \"",
"              f\"\x7bresult[\x27data\x27][\x27hts221\x27][\x27humidity\x27]:.1f\x7d%\")",
"",
"        print(\"\\n--- Ecarts ---\")",
"        print(f\"Temperature : \x7bresult[\x27differences\x27][\x27temperature\x27]:.2f\x7dC\")",
"        print(f\"Humidite    : \x7bresult[\x27differences\x27][\x27humidity\x27]:.2f\x7d%\")",
"",
"        if result[\x27alerts\x27][\x27temperature_alert\x27]:",
"            print(\"ALERTE : Ecart temperature eleve entre capteurs !\")",
"        if result[\x27alerts\x27][\x27humidity_alert\x27]:",
"            print(\"ALERTE : Ecart humidite eleve entre capteurs !\")",
"",
"        print(\"\\n\" + \"-\"*50 + \"\\n\")",
"        time.sleep(5)",
"",
""
]

/-- Exact content of `ressources/snippets/hts221_cross_validation.py`. -/
def hts221Text : String := joinLines hts221Lines

/-- The lines of `ressources/snippets/mqtt_example.py`. -/
def mqttExampleLines : List String := [
"# /// script",
"# requires-python = \">=3.11\"",
"# dependencies = [\"adafruit-circuitpython-ahtx0\", \"adafruit-blinka\", \"paho-mqtt\"]",
"# ///",
"\"\"\"",
"Exemple de publication MQTT des donnees capteur vers un broker.",
"",
"Categorie B -- Traitement et logique",
"Difficulte : Moyenne",
"",
"Ce snippet montre comment:",
"- Se connecter a un broker MQTT (ex. test.mosquitto.org)",
"- Publier les donnees de temperature et humidite en JSON",
"- Gerer les erreurs de connexion et de publication",
"- Se deconnecter proprement",
"\"\"\"",
"",
"import json",
"import time",
"",
"import board",
"import adafruit_ahtx0",
"import paho.mqtt.client as mqtt",
"",
"",
"# Configuration MQTT",
"BROKER_HOST = \"test.mosquitto.org\"",
"BROKER_PORT = 1883",
"TOPIC = \"station-meteo/capteurs\"",
"",
"",
"def create_mqtt_client():",
"    \"\"\"",
"    Cree et configure un client MQTT.",
"",
"    Returns:",
"        mqtt.Client: Client MQTT configure",
"    \"\"\"",
"    client = mqtt.Client(mqtt.CallbackAPIVersion.VERSION2)",
"    return client",
"",
"",
"def publish_sensor_data(client, temperature, humidity):",
"    \"\"\"",
"    Publie les donnees capteur au format JSON sur le topic MQTT.",
"",
"    Args:",
"        client (mqtt.Client): Client MQTT connecte",
"        temperature (float): Temperature en Celsius",
"        humidity (float): Humidite relative en pourcentage",
"    \"\"\"",
"    payload = json.dumps(\x7b",
"        \"temperature_c\": round(temperature, 2),",
"        \"humidity_pct\": round(humidity, 2),",
"        \"timestamp\": time.time(),",
"    \x7d)",
"    result = client.publish(TOPIC, payload)",
"    result.wait_for_publish()",
"",
"",
"# Exemple d\x27utilisation",
"if __name__ == \"__main__\":",
"    # Initialisation capteur",
"    i2c = board.I2C()",
"    sensor = adafruit_ahtx0.AHTx0(i2c)",
"",
"    # Connexion MQTT",
"    client = create_mqtt_client()",
"    try:",
"        client.connect(BROKER_HOST, BROKER_PORT)",
"        client.loop_start()",
"        print(f\"Connecte a \x7bBROKER_HOST\x7d:\x7bBROKER_PORT\x7d\")",
"        print(f\"Topic : \x7bTOPIC\x7d\")",
"        print(\"Ctrl+C pour arreter\\n\")",
"",
"        while True:",
"            temperature = sensor.temperature",
"            humidity = sensor.relative_humidity",
"            publish_sensor_data(client, temperature, humidity)",
"            print(f\"Publie : \x7btemperature:.1f\x7dC, \x7bhumidity:.1f\x7d%\")",
"            time.sleep(5)",
"",
"    except KeyboardInterrupt:",
"        print(\"\\nArret demande par l\x27utilisateur\")",
"",
"    finally:",
"        client.loop_stop()",
"        client.disconnect()",
"        print(\"Deconnexion MQTT propre\")",
"",
""
]

/-- Exact content of `ressources/snippets/mqtt_example.py`. -/
def mqttExampleText : String := joinLines mqttExampleLines

/-- The lines of `ressources/snippets/neoslider_display.py`. -/
def neosliderLines : List String := [
"# /// script",
"# requires-python = \">=3.9\"",
"# dependencies = [\"adafruit-circuitpython-seesaw\", \"adafruit-circuitpython-ahtx0\", \"adafruit-blinka\"]",
"# ///",
"\"\"\"",
"Exemple d\x27affichage visuel avec le Neoslider (LEDs NeoPixel RGB).",
"",
"Catégorie D — Interface (avancée)",
"Difficulté : Élevée",
"",
"Ce snippet montre comment:",
"- Initialiser le Neoslider (potentiomètre + 4 NeoPixels)",
"- Mapper des valeurs de température/humidité à des couleurs",
"- Créer des animations visuelles selon les conditions météo",
"- Utiliser le slider comme contrôle (seuils d\x27alarme)",
"",
"ATTENTION : Nécessite la bibliothèque adafruit-circuitpython-seesaw",
"\"\"\"",
"",
"import time",
"import board",
"from adafruit_seesaw.seesaw import Seesaw",
"import adafruit_ahtx0",
"",
"",
"class WeatherDisplay:",
"    \"\"\"",
"    Affichage visuel des conditions météo sur Neoslider.",
"    \"\"\"",
"",
"    def __init__(self):",
"        \"\"\"Initialise le Neoslider et le capteur AHT20.\"\"\"",
"        i2c = board.I2C()",
"",
"        # Initialiser le Neoslider (adresse I²C 0x30)",
"        self.neoslider = Seesaw(i2c, addr=0x30)",
"",
"        # Initialiser le capteur AHT20",
"        self.sensor = adafruit_ahtx0.AHTx0(i2c)",
"",
"        # Nombre de pixels (4 sur le Neoslider)",
"        self.num_pixels = 4",
"",
"        # Configuration des couleurs",
"        self.off = (0, 0, 0)",
"",
"    def temperature_to_color(self, temp: float) -> tuple:",
"        \"\"\"",
"        Convertit une température en couleur RGB.",
"",
"        Gradient :",
"        - Bleu froid : < 15°C",
"        - Vert : 15-20°C",
"        - Jaune : 20-25°C",
"        - Orange : 25-30°C",
"        - Rouge chaud : > 30°C",
"",
"        Args:",
"            temp (float): Température en Celsius",
"",
"        Returns:",
"            tuple: Couleur RGB (r, g, b) entre 0-255",
"        \"\"\"",
"        if temp < 15:",
"            # Bleu froid",
"            return (0, 0, 255)",
"        elif temp < 20:",
"            # Gradient bleu → vert",
"            ratio = (temp - 15) / 5",
"            return (0, int(255 * ratio), int(255 * (1 - ratio)))",
"        elif temp < 25:",
"            # Gradient vert → jaune",
"            ratio = (temp - 20) / 5",
"            return (int(255 * ratio), 255, 0)",
"        elif temp < 30:",
"            # Gradient jaune → orange",
"            ratio = (temp - 25) / 5",
"            return (255, int(255 * (1 - ratio * 0.5)), 0)",
"        else:",
"            # Rouge chaud",
"            return (255, 0, 0)",
"",
"    def humidity_to_brightness(self, humidity: float) -> float:",
"        \"\"\"",
"        Convertit l\x27humidité en niveau de luminosité.",
"",
"        Plus l\x27humidité est élevée, plus les LEDs sont brillantes.",
"",
"        Args:",
"            humidity (float): Humidité relative (0-100%)",
"",
"        Returns:",
"            float: Multiplicateur de luminosité (0.2-1.0)",
"        \"\"\"",
"        # Limiter entre 20% et 100% de luminosité",
"        return 0.2 + (humidity / 100) * 0.8",
"",
"    def apply_brightness(self, color: tuple, brightness: float) -> tuple:",
"        \"\"\"",
"        Applique un facteur de luminosité à une couleur.",
"",
"        Args:",
"            color (tuple): Couleur RGB (r, g, b)",
"            brightness (float): Facteur de luminosité (0.0-1.0)",
"",
"        Returns:",
"            tuple: Couleur ajustée",
"        \"\"\"",
"        return tuple(int(c * brightness) for c in color)",
"",
"    def set_all_pixels(self, color: tuple):",
"        \"\"\"",
"        Définit la même couleur pour tous les pixels.",
"",
"        Args:",
"            color (tuple): Couleur RGB (r, g, b)",
"        \"\"\"",
"        for i in range(self.num_pixels):",
"            self.neoslider.pixel_set(i, color)",
"        self.neoslider.pixel_show()",
"",
"    def animated_fill(self, color: tuple, delay: float = 0.1):",
"        \"\"\"",
"        Remplit progressivement les pixels avec une couleur.",
"",
"        Args:",
"            color (tuple): Couleur RGB (r, g, b)",
"            delay (float): Délai entre chaque pixel (secondes)",
"        \"\"\"",
"        for i in range(self.num_pixels):",
"            self.neoslider.pixel_set(i, color)",
"            self.neoslider.pixel_show()",
"            time.sleep(delay)",
"",
"    def breathing_effect(self, color: tuple, cycles: int = 2, duration: float = 2.0):",
"        \"\"\"",
"        Effet de respiration (fade in/out) avec une couleur.",
"",
"        Args:",
"            color (tuple): Couleur de base RGB (r, g, b)",
"            cycles (int): Nombre de cycles de respiration",
"            duration (float): Durée d\x27un cycle complet (secondes)",
"        \"\"\"",
"        steps = 20",
"        step_delay = duration / (steps * 2)",
"",
"        for _ in range(cycles):",
"            # Fade in",
"            for i in range(steps + 1):",
"                brightness = i / steps",
"                adjusted_color = self.apply_brightness(color, brightness)",
"                self.set_all_pixels(adjusted_color)",
"                time.sleep(step_delay)",
"",
"            # Fade out",
"            for i in range(steps, -1, -1):",
"                brightness = i / steps",
"                adjusted_color = self.apply_brightness(color, brightness)",
"                self.set_all_pixels(adjusted_color)",
"                time.sleep(step_delay)",
"",
"    def display_weather(self):",
"        \"\"\"",
"        Affiche les conditions météo actuelles sur les LEDs.",
"        \"\"\"",
"        # Lecture des données",
"        temperature = self.sensor.temperature",
"        humidity = self.sensor.relative_humidity",
"",
"        # Calcul de la couleur et luminosité",
"        color = self.temperature_to_color(temperature)",
"        brightness = self.humidity_to_brightness(humidity)",
"        final_color = self.apply_brightness(color, brightness)",
"",
"        # Affichage",
"        self.set_all_pixels(final_color)",
"",
"        return temperature, humidity, final_color",
"",
"",
"# Exemple d\x27utilisation",
"if __name__ == \"__main__\":",
"    display = WeatherDisplay()",
"",
"    print(\"Station météo - Affichage visuel Neoslider\")",
"    print(\"Les LEDs indiquent :\")",
"    print(\"  - Couleur : Température (bleu=froid, rouge=chaud)\")",
"    print(\"  - Luminosité : Humidité (sombre=sec, brillant=humide)\")",
"    print(\"\\nCtrl+C pour arrêter\\n\")",
"",
"    try:",
"        # Animation de démarrage",
"        print(\"Animation de demarrage...\")",
"        display.animated_fill((50, 50, 255), delay=0.15)",
"        time.sleep(0.5)",
"        display.set_all_pixels(display.off)",
"        time.sleep(0.5)",
"",
"        # Boucle principale",
"        while True:",
"            temp, hum, color = display.display_weather()",
"",
"            print(f\"Température : \x7btemp:.1f\x7d°C | Humidité : \x7bhum:.1f\x7d% | \"",
"                  f\"Couleur RGB : \x7bcolor\x7d\")",
"",
"            time.sleep(5)",
"",
"    except KeyboardInterrupt:",
"        print(\"\\nArret demande par l\x27utilisateur\")",
"",
"    finally:",
"        # Éteindre les LEDs proprement",
"        display.set_all_pixels(display.off)",
"        print(\"LEDs eteintes\")",
"",
""
]

/-- Exact content of `ressources/snippets/neoslider_display.py`. -/
def neosliderText : String := joinLines neosliderLines

/-- The lines of `tests/test_instructor.py`. -/
def testInstructorLines : List String := [
"\"\"\"",
"BONIF - Hidden Instructor Test Suite",
"=====================================",
"",
"These tests detect structural evidence of improvements to the base weather",
"station code. They analyze code via AST and regex -- NO student code is",
"imported or executed.",
"",
"Each test maps to an intentional gap in the base code (main.py docstring",
"lists 8 gaps). Students must make improvements; these tests detect evidence",
"of those improvements automatically.",
"",
"Results inform the oral validation discussion (IND-00SX-D, 20%).",
"\"\"\"",
"",
"import ast",
"import io",
"import re",
"import tokenize",
"from pathlib import Path",
"",
"import pytest",
"",
"",
"# ---------------------------------------------------------------------------",
"# Helpers",
"# ---------------------------------------------------------------------------",
"",
"def _get_repo_root():",
"    \"\"\"Find the repository root by looking for .github folder.\"\"\"",
"    current = Path(__file__).parent.parent",
"    if (current / \".github\").exists():",
"        return current",
"    return current",
"",
"",
"REPO_ROOT = _get_repo_root()",
"MAIN_PY = REPO_ROOT / \"main.py\"",
"SENSORS_DIR = REPO_ROOT / \"sensors\"",
"",
"",
"def _parse_file(filepath):",
"    \"\"\"",
"    Read and parse a Python file via AST.",
"",
"    Returns:",
"        tuple: (ast.Module, str) -- the AST tree and raw content,",
"               or None if the file does not exist or has syntax errors.",
"    \"\"\"",
"    path = Path(filepath)",
"    if not path.exists():",
"        return None",
"    try:",
"        content = path.read_text(encoding=\"utf-8\")",
"        tree = ast.parse(content)",
"        return tree, content",
"    except SyntaxError:",
"        return None",
"",
"",
"def _find_python_files(root):",
"    \"\"\"",
"    Find all .py files under *root*, excluding hidden directories (.venv/,",
"    .git/, .tox/, .mypy_cache/, etc.) and __pycache__/ directories.",
"",
"    Returns:",
"        list[Path]: Python file paths found.",
"    \"\"\"",
"    root = Path(root)",
"    result = []",
"    for f in root.rglob(\"*.py\"):",
"        parts = f.relative_to(root).parts",
"        if not any(p.startswith(\x27.\x27) or p == \x27__pycache__\x27 for p in parts):",
"            result.append(f)",
"    return result",
"",
"",
"def _strip_comments_and_docstrings(source: str) -> str:",
"    \"\"\"Remove comments and docstrings from Python source code.\"\"\"",
"    result = []",
"    try:",
"        tokens = tokenize.generate_tokens(io.StringIO(source).readline)",
"        prev_toktype = tokenize.INDENT",
"        for toktype, tokval, _, _, _ in tokens:",
"            if toktype == tokenize.COMMENT:",
"                continue",
"            elif toktype == tokenize.STRING:",
"                if prev_toktype in (",
"                    tokenize.INDENT,",
"                    tokenize.NEWLINE,",
"                    tokenize.NL,",
"                    tokenize.DEDENT,",
"                ):",
"                    # This is a docstring -- skip it",
"                    continue",
"            result.append(tokval)",
"            if toktype not in (",
"                tokenize.NL,",
"                tokenize.NEWLINE,",
"                tokenize.INDENT,",
"                tokenize.DEDENT,",
"            ):",
"                prev_toktype = toktype",
"    except tokenize.TokenError:",
"        # If tokenization fails, return original source",
"        return source",
"    return \" \".join(result)",
"",
"",
"# ---------------------------------------------------------------------------",
"# Test 1: Error Handling Added",
"# ---------------------------------------------------------------------------",
"",
"def test_error_handling_added():",
"    \"\"\"",
"    Detect try/except blocks in main.py.",
"",
"    The base code has 0 try/except blocks. Any try/except is evidence that",
"    the student added error handling (gap #1 in base code).",
"    \"\"\"",
"    result = _parse_file(MAIN_PY)",
"    if result is None:",
"        pytest.skip(\"main.py not found or has syntax errors\")",
"",
"    tree, _ = result",
"    try_nodes = [n for n in ast.walk(tree) if isinstance(n, ast.Try)]",
"",
"    if len(try_nodes) == 0:",
"        pytest.fail(",
"            \"\\n\\n\"",
"            \"Expected: At least one try/except block in main.py\\n\"",
"            \"Actual:   0 try/except blocks found\\n\\n\"",
"            \"Suggestion: Ajoutez la gestion d\x27erreurs pour les lectures capteur:\\n\"",
"            \"  try:\\n\"",
"            \"      temperature = sensor.temperature\\n\"",
"            \"  except Exception as e:\\n\"",
"            \"      print(f\x27Erreur de lecture: \x7be\x7d\x27)\\n\"",
"        )",
"",
"",
"# ---------------------------------------------------------------------------",
"# Test 2: KeyboardInterrupt Handling",
"# ---------------------------------------------------------------------------",
"",
"def test_keyboard_interrupt_handling():",
"    \"\"\"",
"    Detect KeyboardInterrupt handling in main.py.",
"",
"    The base code crashes on Ctrl+C (gap #6). A proper station should shut",
"    down gracefully.",
"    \"\"\"",
"    result = _parse_file(MAIN_PY)",
"    if result is None:",
"        pytest.skip(\"main.py not found or has syntax errors\")",
"",
"    tree, content = result",
"",
"    # AST -- look for ExceptHandler with KeyboardInterrupt",
"    found_ast = False",
"    for node in ast.walk(tree):",
"        if isinstance(node, ast.ExceptHandler):",
"            if node.type is not None:",
"                if isinstance(node.type, ast.Name) and node.type.id == \"KeyboardInterrupt\":",
"                    found_ast = True",
"                    break",
"                elif isinstance(node.type, ast.Tuple):",
"                    for elt in node.type.elts:",
"                        if isinstance(elt, ast.Name) and elt.id == \"KeyboardInterrupt\":",
"                            found_ast = True",
"                            break",
"                    if found_ast:",
"                        break",
"",
"    if not found_ast:",
"        pytest.fail(",
"            \"\\n\\n\"",
"            \"Expected: KeyboardInterrupt handling in main.py\\n\"",
"            \"Actual:   No KeyboardInterrupt handler found\\n\\n\"",
"            \"Suggestion: Gerez l\x27arret propre avec Ctrl+C:\\n\"",
"            \"  try:\\n\"",
"            \"      while True:\\n\"",
"            \"          # ... lecture capteur ...\\n\"",
"            \"  except KeyboardInterrupt:\\n\"",
"            \"      print(\x27Arret propre de la station.\x27)\\n\"",
"        )",
"",
"",
"# ---------------------------------------------------------------------------",
"# Test 3: Data Validation Present",
"# ---------------------------------------------------------------------------",
"",
"def test_data_validation_present():",
"    \"\"\"",
"    Detect data validation logic (range checks on sensor values).",
"",
"    The base code does not validate sensor readings (gap #2). Students should",
"    check for unrealistic values (e.g., temperature > 100 or < -50).",
"    \"\"\"",
"    result = _parse_file(MAIN_PY)",
"    if result is None:",
"        pytest.skip(\"main.py not found or has syntax errors\")",
"",
"    _, content = result",
"    stripped = _strip_comments_and_docstrings(content)",
"",
"    # Look for comparison operators near sensor-related variable names",
"    patterns = [",
"        r\"(temperature|temp|humidity|humidite|hum)\\s*[<>]=?\\s*-?\\d\",",
"        r\"-?\\d+\\.?\\d*\\s*[<>]=?\\s*(temperature|temp|humidity|humidite|hum)\",",
"        r\"(is_valid|valide|validate|validation|plage|range|aberrant)\",",
"        r\"(MIN_|MAX_|SEUIL_|THRESHOLD)\",",
"    ]",
"",
"    found = any(re.search(p, stripped, re.IGNORECASE) for p in patterns)",
"",
"    if not found:",
"        pytest.fail(",
"            \"\\n\\n\"",
"            \"Expected: Data validation (range checks on sensor values)\\n\"",
"            \"Actual:   No validation patterns found in main.py\\n\\n\"",
"            \"Suggestion: Validez les valeurs avant de les afficher:\\n\"",
"            \"  if temperature < -50 or temperature > 100:\\n\"",
"            \"      print(\x27Valeur aberrante!\x27)\\n\"",
"            \"  MIN_TEMPERATURE = -40\\n\"",
"            \"  MAX_TEMPERATURE = 120\\n\"",
"        )",
"",
"",
"# ---------------------------------------------------------------------------",
"# Test 4: Timestamp Added",
"# ---------------------------------------------------------------------------",
"",
"def test_timestamp_added():",
"    \"\"\"",
"    Detect datetime or time.strftime usage in main.py.",
"",
"    The base code has no timestamps (gap #4). Measurements should be",
"    time-stamped for traceability.",
"    \"\"\"",
"    result = _parse_file(MAIN_PY)",
"    if result is None:",
"        pytest.skip(\"main.py not found or has syntax errors\")",
"",
"    tree, content = result",
"",
"    # AST: look for import of datetime or time.strftime usage",
"    found_import = False",
"    for node in ast.walk(tree):",
"        if isinstance(node, ast.Import):",
"            for alias in node.names:",
"                if alias.name in (\"datetime\",):",
"                    found_import = True",
"        elif isinstance(node, ast.ImportFrom):",
"            if node.module in (\"datetime\", \"time\"):",
"                found_import = True",
"",
"    # Regex fallback: strftime, isoformat, datetime.now",
"    found_regex = bool(re.search(",
"        r\"(strftime|isoformat|datetime\\.now|datetime\\.utcnow|time\\.ctime|time\\.localtime)\",",
"        content,",
"    ))",
"",
"    if not found_import and not found_regex:",
"        pytest.fail(",
"            \"\\n\\n\"",
"            \"Expected: Timestamp usage (datetime or time.strftime)\\n\"",
"            \"Actual:   No timestamp import or usage found\\n\\n\"",
"            \"Suggestion: Ajoutez un horodatage a chaque mesure:\\n\"",
"            \"  from datetime import datetime\\n\"",
"            \"  timestamp = datetime.now().isoformat()\\n\"",
"            \"  print(f\x27\x7btimestamp\x7d - Temperature: \x7btemp:.1f\x7d C\x27)\\n\"",
"        )",
"",
"",
"# ---------------------------------------------------------------------------",
"# Test 5: Configuration Externalized",
"# ---------------------------------------------------------------------------",
"",
"def test_configuration_externalized():",
"    \"\"\"",
"    Detect externalized configuration (argparse, configparser, env vars,",
"    or significant UPPERCASE constants).",
"",
"    The base code hardcodes the sleep interval (gap #5). Configuration",
"    should be adjustable without modifying source code.",
"    \"\"\"",
"    result = _parse_file(MAIN_PY)",
"    if result is None:",
"        pytest.skip(\"main.py not found or has syntax errors\")",
"",
"    tree, content = result",
"",
"    # AST: look for argparse, click, configparser, os.environ imports",
"    config_imports = \x7b\"argparse\", \"click\", \"configparser\", \"dotenv\"\x7d",
"    found_import = False",
"    for node in ast.walk(tree):",
"        if isinstance(node, ast.Import):",
"            for alias in node.names:",
"                if alias.name in config_imports:",
"                    found_import = True",
"        elif isinstance(node, ast.ImportFrom):",
"            if node.module in config_imports or (node.module and node.module.startswith(\"os\")):",
"                # Check for os.environ usage",
"                if node.module == \"os\":",
"                    found_import = True",
"",
"    # Regex: os.environ.get, os.getenv, or many UPPERCASE constants",
"    found_env = bool(re.search(r\"os\\.(environ|getenv)\", content))",
"    uppercase_constants = re.findall(r\"^[A-Z][A-Z_0-9]\x7b2,\x7d\\s*=\", content, re.MULTILINE)",
"    # Base code has very few constants; 3+ suggests externalization effort",
"    found_constants = len(uppercase_constants) >= 3",
"",
"    if not found_import and not found_env and not found_constants:",
"        pytest.fail(",
"            \"\\n\\n\"",
"            \"Expected: Externalized configuration (argparse, env vars, or constants)\\n\"",
"            \"Actual:   No configuration mechanism found\\n\\n\"",
"            \"Suggestion: Rendez la configuration ajustable:\\n\"",
"            \"  # Option 1: Constants\\n\"",
"            \"  INTERVAL = 5\\n\"",
"            \"  MAX_RETRIES = 3\\n\"",
"            \"  SENSOR_TYPE = \x27AHT20\x27\\n\\n\"",
"            \"  # Option 2: argparse\\n\"",
"            \"  import argparse\\n\"",
"            \"  parser = argparse.ArgumentParser()\\n\"",
"            \"  parser.add_argument(\x27--interval\x27, type=int, default=5)\\n\\n\"",
"            \"  # Option 3: Environment variable\\n\"",
"            \"  import os\\n\"",
"            \"  interval = int(os.environ.get(\x27INTERVAL\x27, 5))\\n\"",
"        )",
"",
"",
"# ---------------------------------------------------------------------------",
"# Test 6: Additional Sensor Integration",
"# ---------------------------------------------------------------------------",
"",
"def test_additional_sensor_integration():",
"    \"\"\"",
"    Detect import of additional Adafruit sensor libraries beyond AHT20.",
"",
"    The base code only uses AHT20 (gap #7 -- monolithic). Adding sensors",
"    like HTS221, AS7341, VCNL4200, or Neoslider shows expansion.",
"    \"\"\"",
"    # Scan all .py files in repo root and sensors/ directory",
"    search_dirs = [REPO_ROOT, SENSORS_DIR]",
"    all_py_files = []",
"    for d in search_dirs:",
"        if d.exists():",
"            for f in d.glob(\"*.py\"):",
"                all_py_files.append(f)",
"    # Also check subdirectories of sensors/",
"    if SENSORS_DIR.exists():",
"        for f in SENSORS_DIR.rglob(\"*.py\"):",
"            if f not in all_py_files:",
"                all_py_files.append(f)",
"",
"    additional_sensors = [",
"        \"hts221\", \"as7341\", \"vcnl4200\", \"seesaw\",",
"        \"bmp280\", \"bme280\", \"bme680\", \"dht\",",
"    ]",
"",
"    found_sensors = []",
"    for py_file in all_py_files:",
"        try:",
"            content = py_file.read_text(encoding=\"utf-8\")",
"        except Exception:",
"            continue",
"        for sensor in additional_sensors:",
"            if re.search(rf\"(import|from).*\x7bsensor\x7d\", content, re.IGNORECASE):",
"                found_sensors.append(sensor)",
"",
"    if not found_sensors:",
"        pytest.fail(",
"            \"\\n\\n\"",
"            \"Expected: At least one additional sensor library imported\\n\"",
"            \"Actual:   Only AHT20 detected (base code)\\n\\n\"",
"            \"Suggestion: Integrez un capteur supplementaire:\\n\"",
"            \"  # HTS221 (temperature/humidite alternative)\\n\"",
"            \"  from adafruit_hts221 import HTS221\\n\\n\"",
"            \"  # AS7341 (spectrometre, analyse couvert nuageux)\\n\"",
"            \"  from adafruit_as7341 import AS7341\\n\\n\"",
"            \"  # VCNL4200 (luminosite, proximite)\\n\"",
"            \"  from adafruit_vcnl4200 import VCNL4200\\n\"",
"        )",
"",
"",
"# ---------------------------------------------------------------------------",
"# Test 7: Data Persistence",
"# ---------------------------------------------------------------------------",
"",
"def test_data_persistence():",
"    \"\"\"",
"    Detect CSV or JSON data persistence (file I/O with structured format).",
"",
"    The base code does not persist data. Students should save measurements",
"    to files for later analysis.",
"    \"\"\"",
"    # Check all .py files in the repo",
"    all_py = _find_python_files(REPO_ROOT)",
"",
"    found_persistence = False",
"    for py_file in all_py:",
"        result = _parse_file(py_file)",
"        if result is None:",
"            continue",
"        tree, content = result",
"",
"        # AST: look for csv or json import",
"        has_format_import = False",
"        for node in ast.walk(tree):",
"            if isinstance(node, ast.Import):",
"                for alias in node.names:",
"                    if alias.name in (\"csv\", \"json\"):",
"                        has_format_import = True",
"            elif isinstance(node, ast.ImportFrom):",
"                if node.module in (\"csv\", \"json\"):",
"                    has_format_import = True",
"",
"        # Also check for open() usage with write mode",
"        has_file_write = bool(re.search(",
"            r\"open\\s*\\(.+[\x27\\\"]w[\x27\\\"]|[\x27\\\"]a[\x27\\\"]\",",
"            content,",
"        ))",
"",
"        if has_format_import and has_file_write:",
"            found_persistence = True",
"            break",
"",
"        # Looser check: just csv/json import is strong evidence",
"        if has_format_import and re.search(r\"(write|dump|save|append|fichier|file)\", content, re.IGNORECASE):",
"            found_persistence = True",
"            break",
"",
"    if not found_persistence:",
"        pytest.fail(",
"            \"\\n\\n\"",
"            \"Expected: Data persistence (csv or json with file writing)\\n\"",
"            \"Actual:   No data persistence pattern found\\n\\n\"",
"            \"Suggestion: Sauvegardez les mesures dans un fichier:\\n\"",
"            \"  import csv\\n\"",
"            \"  with open(\x27data/mesures.csv\x27, \x27a\x27) as f:\\n\"",
"            \"      writer = csv.writer(f)\\n\"",
"            \"      writer.writerow([timestamp, temperature, humidity])\\n\"",
"        )",
"",
"",
"# ---------------------------------------------------------------------------",
"# Test 8: Student Tests Written",
"# ---------------------------------------------------------------------------",
"",
"def test_tests_written():",
"    \"\"\"",
"    Check for student-written test files in the tests/ directory.",
"",
"    The base code has no tests. Writing tests shows quality consciousness",
"    (Category C improvement).",
"    \"\"\"",
"    tests_dir = REPO_ROOT / \"tests\"",
"    if not tests_dir.exists():",
"        pytest.fail(",
"            \"\\n\\n\"",
"            \"Expected: tests/ directory with test files\\n\"",
"            \"Actual:   tests/ directory not found\\n\\n\"",
"            \"Suggestion: Creez des tests pour votre code:\\n\"",
"            \"  mkdir tests\\n\"",
"            \"  # Creez tests/test_sensors.py avec vos tests pytest\\n\"",
"        )",
"",
"    # Find test files (excluding this file)",
"    test_files = [",
"        f for f in tests_dir.glob(\"test_*.py\")",
"        if f.name != \"test_instructor.py\"",
"    ]",
"",
"    if not test_files:",
"        pytest.fail(",
"            \"\\n\\n\"",
"            \"Expected: At least one test_*.py file in tests/ (besides test_instructor.py)\\n\"",
"            f\"Actual:   0 student test files found in \x7btests_dir\x7d\\n\\n\"",
"            \"Suggestion: Ecrivez des tests pour vos fonctions:\\n\"",
"            \"  # tests/test_sensors.py\\n\"",
"            \"  def test_temperature_range():\\n\"",
"            \"      assert -50 <= temperature <= 100\\n\"",
"        )",
"",
"",
"# ---------------------------------------------------------------------------",
"# Test 9: Documentation Improved",
"# ---------------------------------------------------------------------------",
"",
"def test_documentation_improved():",
"    \"\"\"",
"    Count docstrings in main.py.",
"",
"    The base code has approximately 2 docstrings (module + main function).",
"    An increase suggests the student improved documentation (gap #8).",
"    \"\"\"",
"    result = _parse_file(MAIN_PY)",
"    if result is None:",
"        pytest.skip(\"main.py not found or has syntax errors\")",
"",
"    tree, _ = result",
"",
"    # Count docstrings: ast.Expr nodes containing ast.Constant with str",
"    docstring_count = 0",
"    for node in ast.walk(tree):",
"        if isinstance(node, (ast.FunctionDef, ast.AsyncFunctionDef, ast.ClassDef, ast.Module)):",
"            if (node.body",
"                and isinstance(node.body[0], ast.Expr)",
"                and isinstance(node.body[0].value, ast.Constant)",
"                and isinstance(node.body[0].value.value, str)):",
"                docstring_count += 1",
"",
"    # Base code has ~2 docstrings (module docstring + main() docstring)",
"    BASE_DOCSTRINGS = 2",
"",
"    if docstring_count <= BASE_DOCSTRINGS:",
"        pytest.fail(",
"            \"\\n\\n\"",
"            f\"Expected: More than \x7bBASE_DOCSTRINGS\x7d docstrings (base code level)\\n\"",
"            f\"Actual:   \x7bdocstring_count\x7d docstring(s) found\\n\\n\"",
"            \"Suggestion: Ajoutez des docstrings a vos fonctions:\\n\"",
"            \"  def read_temperature(sensor):\\n\"",
"            \"      \\\"\\\"\\\"Lit la temperature du capteur en Celsius.\\\"\\\"\\\"\\n\"",
"            \"      ...\\n\"",
"        )",
"",
"",
"# ---------------------------------------------------------------------------",
"# Test 10: Code Modularization",
"# ---------------------------------------------------------------------------",
"",
"def test_code_modularization():",
"    \"\"\"",
"    Check for new .py files in sensors/ or new directories (utils/, config/).",
"",
"    The base code is monolithic with only sensors/aht20_sensor.py (gap #7).",
"    New modules or directories show modularization effort.",
"    \"\"\"",
"    # Check for new .py files in sensors/ beyond aht20_sensor.py and __init__.py",
"    new_sensor_files = []",
"    if SENSORS_DIR.exists():",
"        for f in SENSORS_DIR.glob(\"*.py\"):",
"            if f.name not in (\"__init__.py\", \"aht20_sensor.py\"):",
"                new_sensor_files.append(f.name)",
"",
"    # Check for new directories (utils/, config/, data/, lib/, etc.)",
"    # Exclude standard dirs that exist in base: .github, sensors, tests, data",
"    base_dirs = \x7b\".github\", \"sensors\", \"tests\", \"data\", \"__pycache__\", \".venv\", \".git\"\x7d",
"    new_dirs = []",
"    for item in REPO_ROOT.iterdir():",
"        if item.is_dir() and item.name not in base_dirs and not item.name.startswith(\".\"):",
"            new_dirs.append(item.name)",
"",
"    # Check for new .py files at root (beyond main.py)",
"    base_root_files = \x7b\"main.py\"\x7d",
"    new_root_py = [",
"        f.name for f in REPO_ROOT.glob(\"*.py\")",
"        if f.name not in base_root_files",
"    ]",
"",
"    has_modularization = bool(new_sensor_files or new_dirs or new_root_py)",
"",
"    if not has_modularization:",
"        pytest.fail(",
"            \"\\n\\n\"",
"            \"Expected: Code modularization (new modules or directories)\\n\"",
"            \"Actual:   Only base code files found (main.py + sensors/aht20_sensor.py)\\n\\n\"",
"            \"Suggestion: Separarez votre code en modules:\\n\"",
"            \"  sensors/aht20_sensor.py    # Nouveau capteur\\n\"",
"            \"  utils/validation.py        # Fonctions de validation\\n\"",
"            \"  config/settings.py         # Configuration centralisee\\n\"",
"        )",
"",
"",
"# ---------------------------------------------------------------------------",
"# Test 11: Non-Blocking Timer Pattern",
"# ---------------------------------------------------------------------------",
"",
"def test_timer_pattern():",
"    \"\"\"",
"    Detect time.monotonic() usage for non-blocking timing.",
"",
"    The base code uses time.sleep(5) in a blocking loop. Upgrading to",
"    time.monotonic() with interval comparison shows the student applied",
"    the timer-in-loop pattern from semaine 4.",
"    \"\"\"",
"    result = _parse_file(MAIN_PY)",
"    if result is None:",
"        pytest.skip(\"main.py not found or has syntax errors\")",
"",
"    _, content = result",
"",
"    # Check for time.monotonic usage (timer-in-loop pattern)",
"    has_monotonic = \"time.monotonic\" in content or \"monotonic()\" in content",
"",
"    # Check for interval comparison (evidence of timer pattern)",
"    has_interval = bool(re.search(",
"        r\x27\\w+\\s*-\\s*\\w+\\s*>=?\\s*\\w+\x27,",
"        content,",
"    ))",
"",
"    if not has_monotonic:",
"        pytest.fail(",
"            \"\\n\\n\"",
"            \"Expected: time.monotonic() usage for non-blocking timing\\n\"",
"            \"Actual:   No time.monotonic() found\\n\\n\"",
"            \"Suggestion: Remplacez time.sleep() par le pattern timer-in-loop:\\n\"",
"            \"  previous = time.monotonic()\\n\"",
"            \"  while True:\\n\"",
"            \"      current = time.monotonic()\\n\"",
"            \"      if current - previous >= INTERVAL:\\n\"",
"            \"          read_sensor(sensor)\\n\"",
"            \"          previous = current\\n\"",
"            \"      time.sleep(0.05)  # Polling rapide\\n\"",
"        )"
]

/-- Exact content of `tests/test_instructor.py`. -/
def testInstructorText : String := joinLines testInstructorLines

/-- The token stream CPython 3.11's `tokenize.generate_tokens` yields for
`mainPyText` (token type and token text, in order). -/
def mainPyTokens : List PyTok := [
PyTok.mk TokType.COMMENT "# /// script",
PyTok.mk TokType.NL "\n",
PyTok.mk TokType.COMMENT "# requires-python = \">=3.11\"",
PyTok.mk TokType.NL "\n",
PyTok.mk TokType.COMMENT "# dependencies = [\"adafruit-circuitpython-ahtx0\", \"adafruit-blinka\", \"RPi.GPIO\"]",
PyTok.mk TokType.NL "\n",
PyTok.mk TokType.COMMENT "# ///",
PyTok.mk TokType.NL "\n",
PyTok.mk TokType.STRING "\"\"\"\nStation météo basique avec capteur AHT20\nVersion minimale - À améliorer par les étudiants\n\nLACUNES INTENTIONNELLES :\n1. Pas de gestion d\x27erreurs si le capteur se déconnecte\n2. Pas de validation des plages de valeurs\n3. Affichage brut sans formatage ni unités claires\n4. Pas d\x27horodatage des mesures\n5. Fréquence codée en dur (pas configurable)\n6. Pas de gestion de Ctrl+C propre\n7. Code monolithique (difficile d\x27ajouter des capteurs)\n8. Documentation minimale\n\"\"\"",
PyTok.mk TokType.NEWLINE "\n",
PyTok.mk TokType.NAME "import",
PyTok.mk TokType.NAME "time",
PyTok.mk TokType.NEWLINE "\n",
PyTok.mk TokType.NAME "import",
PyTok.mk TokType.NAME "board",
PyTok.mk TokType.NEWLINE "\n",
PyTok.mk TokType.NAME "import",
PyTok.mk TokType.NAME "adafruit_ahtx0",
PyTok.mk TokType.NEWLINE "\n",
PyTok.mk TokType.NL "\n",
PyTok.mk TokType.NL "\n",
PyTok.mk TokType.NAME "def",
PyTok.mk TokType.NAME "main",
PyTok.mk TokType.OP "(",
PyTok.mk TokType.OP ")",
PyTok.mk TokType.OP ":",
PyTok.mk TokType.NEWLINE "\n",
PyTok.mk TokType.INDENT "    ",
PyTok.mk TokType.STRING "\"\"\"Point d\x27entrée principal de la station météo.\"\"\"",
PyTok.mk TokType.NEWLINE "\n",
PyTok.mk TokType.COMMENT "# Initialisation I²C et capteur",
PyTok.mk TokType.NL "\n",
PyTok.mk TokType.NAME "i2c",
PyTok.mk TokType.OP "=",
PyTok.mk TokType.NAME "board",
PyTok.mk TokType.OP ".",
PyTok.mk TokType.NAME "I2C",
PyTok.mk TokType.OP "(",
PyTok.mk TokType.OP ")",
PyTok.mk TokType.NEWLINE "\n",
PyTok.mk TokType.NAME "sensor",
PyTok.mk TokType.OP "=",
PyTok.mk TokType.NAME "adafruit_ahtx0",
PyTok.mk TokType.OP ".",
PyTok.mk TokType.NAME "AHTx0",
PyTok.mk TokType.OP "(",
PyTok.mk TokType.NAME "i2c",
PyTok.mk TokType.OP ")",
PyTok.mk TokType.NEWLINE "\n",
PyTok.mk TokType.NL "\n",
PyTok.mk TokType.NAME "print",
PyTok.mk TokType.OP "(",
PyTok.mk TokType.STRING "\"Station météo - AHT20\"",
PyTok.mk TokType.OP ")",
PyTok.mk TokType.NEWLINE "\n",
PyTok.mk TokType.NAME "print",
PyTok.mk TokType.OP "(",
PyTok.mk TokType.STRING "\"Ctrl+C pour arrêter\"",
PyTok.mk TokType.OP ")",
PyTok.mk TokType.NEWLINE "\n",
PyTok.mk TokType.NAME "print",
PyTok.mk TokType.OP "(",
PyTok.mk TokType.OP ")",
PyTok.mk TokType.NEWLINE "\n",
PyTok.mk TokType.NL "\n",
PyTok.mk TokType.COMMENT "# Boucle de lecture (pas de gestion KeyboardInterrupt)",
PyTok.mk TokType.NL "\n",
PyTok.mk TokType.NAME "while",
PyTok.mk TokType.NAME "True",
PyTok.mk TokType.OP ":",
PyTok.mk TokType.NEWLINE "\n",
PyTok.mk TokType.COMMENT "# Lecture des données (pas de try/except)",
PyTok.mk TokType.NL "\n",
PyTok.mk TokType.INDENT "        ",
PyTok.mk TokType.NAME "temperature",
PyTok.mk TokType.OP "=",
PyTok.mk TokType.NAME "sensor",
PyTok.mk TokType.OP ".",
PyTok.mk TokType.NAME "temperature",
PyTok.mk TokType.NEWLINE "\n",
PyTok.mk TokType.NAME "humidity",
PyTok.mk TokType.OP "=",
PyTok.mk TokType.NAME "sensor",
PyTok.mk TokType.OP ".",
PyTok.mk TokType.NAME "relative_humidity",
PyTok.mk TokType.NEWLINE "\n",
PyTok.mk TokType.NL "\n",
PyTok.mk TokType.COMMENT "# Affichage brut (pas de formatage, pas d\x27unités claires, pas de timestamp)",
PyTok.mk TokType.NL "\n",
PyTok.mk TokType.NAME "print",
PyTok.mk TokType.OP "(",
PyTok.mk TokType.STRING "f\"Température: \x7btemperature\x7d\"",
PyTok.mk TokType.OP ")",
PyTok.mk TokType.NEWLINE "\n",
PyTok.mk TokType.NAME "print",
PyTok.mk TokType.OP "(",
PyTok.mk TokType.STRING "f\"Humidité: \x7bhumidity\x7d\"",
PyTok.mk TokType.OP ")",
PyTok.mk TokType.NEWLINE "\n",
PyTok.mk TokType.NAME "print",
PyTok.mk TokType.OP "(",
PyTok.mk TokType.OP ")",
PyTok.mk TokType.NEWLINE "\n",
PyTok.mk TokType.NL "\n",
PyTok.mk TokType.COMMENT "# Délai fixe (pas configurable)",
PyTok.mk TokType.NL "\n",
PyTok.mk TokType.NAME "time",
PyTok.mk TokType.OP ".",
PyTok.mk TokType.NAME "sleep",
PyTok.mk TokType.OP "(",
PyTok.mk TokType.NUMBER "5",
PyTok.mk TokType.OP ")",
PyTok.mk TokType.NEWLINE "\n",
PyTok.mk TokType.NL "\n",
PyTok.mk TokType.NL "\n",
PyTok.mk TokType.DEDENT "",
PyTok.mk TokType.DEDENT "",
PyTok.mk TokType.NAME "if",
PyTok.mk TokType.NAME "__name__",
PyTok.mk TokType.OP "==",
PyTok.mk TokType.STRING "\"__main__\"",
PyTok.mk TokType.OP ":",
PyTok.mk TokType.NEWLINE "\n",
PyTok.mk TokType.INDENT "    ",
PyTok.mk TokType.NAME "main",
PyTok.mk TokType.OP "(",
PyTok.mk TokType.OP ")",
PyTok.mk TokType.NEWLINE "\n",
PyTok.mk TokType.NL "\n",
PyTok.mk TokType.DEDENT "",
PyTok.mk TokType.ENDMARKER ""
]

/-- The comment/docstring-stripped text of `main.py`: the value
`strip_comments_and_docstrings` produces from `mainPyTokens` (verified
below). -/
def strippedMainText : String := "\n \n \n \n \n import time \n import board \n import adafruit_ahtx0 \n \n \n def main ( ) : \n      \"\"\"Point d\x27entrée principal de la station météo.\"\"\" \n \n i2c = board . I2C ( ) \n sensor = adafruit_ahtx0 . AHTx0 ( i2c ) \n \n print ( \"Station météo - AHT20\" ) \n print ( \"Ctrl+C pour arrêter\" ) \n print ( ) \n \n \n while True : \n \n          temperature = sensor . temperature \n humidity = sensor . relative_humidity \n \n \n print ( f\"Température: \x7btemperature\x7d\" ) \n print ( f\"Humidité: \x7bhumidity\x7d\" ) \n print ( ) \n \n \n time . sleep ( 5 ) \n \n \n   if __name__ == \"__main__\" : \n      main ( ) \n \n  "

/-- `strippedMainText` with every ASCII uppercase letter lowered (verified
below): the text detector 3's case-insensitive patterns scan. -/
def strippedMainLow : String := "\n \n \n \n \n import time \n import board \n import adafruit_ahtx0 \n \n \n def main ( ) : \n      \"\"\"point d\x27entrée principal de la station météo.\"\"\" \n \n i2c = board . i2c ( ) \n sensor = adafruit_ahtx0 . ahtx0 ( i2c ) \n \n print ( \"station météo - aht20\" ) \n print ( \"ctrl+c pour arrêter\" ) \n print ( ) \n \n \n while true : \n \n          temperature = sensor . temperature \n humidity = sensor . relative_humidity \n \n \n print ( f\"température: \x7btemperature\x7d\" ) \n print ( f\"humidité: \x7bhumidity\x7d\" ) \n print ( ) \n \n \n time . sleep ( 5 ) \n \n \n   if __name__ == \"__main__\" : \n      main ( ) \n \n  "

end StationMeteo

namespace StationMeteo

/-! ## The embedded baseline repository: syntax trees

`mainPyTree` reproduces `main.py`'s full statement structure.  The trees of
the other files are skeletons that carry exactly the queries the harness
makes on them: every `import`/`from` statement anywhere in the file
(top-level or nested) is present verbatim, module/function/class bodies and
docstring positions follow the file, and statement kinds the harness never
inspects are `other` nodes (with their nested statements as children). -/

/-- `ast.parse(mainPyText)`: module docstring; `import time`, `import board`,
`import adafruit_ahtx0`; `def main()` with its docstring, two assignments,
three prints and the `while True` loop (two assignments, three prints,
`time.sleep(5)`); the `if __name__ == "__main__"` block. -/
def mainPyTree : PyNode :=
  .module [
    .exprStmt .constStr,
    .importStmt ["time"],
    .importStmt ["board"],
    .importStmt ["adafruit_ahtx0"],
    .functionDef "main" [
      .exprStmt .constStr,
      .other [], .other [],
      .exprStmt .otherE, .exprStmt .otherE, .exprStmt .otherE,
      .other [
        .other [], .other [],
        .exprStmt .otherE, .exprStmt .otherE, .exprStmt .otherE,
        .exprStmt .otherE
      ]
    ],
    .other [.exprStmt .otherE]
  ]

/-- `ast.parse(aht20SensorText)`: module docstring, `import board`,
`import adafruit_ahtx0`, three documented functions. -/
def aht20SensorTree : PyNode :=
  .module [
    .exprStmt .constStr,
    .importStmt ["board"],
    .importStmt ["adafruit_ahtx0"],
    .functionDef "init_sensor" [.exprStmt .constStr, .other [], .other []],
    .functionDef "read_temperature" [.exprStmt .constStr, .other []],
    .functionDef "read_humidity" [.exprStmt .constStr, .other []]
  ]

/-- `ast.parse(as7341Text)`: module docstring, `import board`,
`from adafruit_as7341 import AS7341`, five functions, and the
`if __name__` block whose body starts with a nested `import time`. -/
def as7341Tree : PyNode :=
  .module [
    .exprStmt .constStr,
    .importStmt ["board"],
    .importFrom (some "adafruit_as7341") ["AS7341"],
    .functionDef "init_spectrometer" [.exprStmt .constStr, .other [], .other []],
    .functionDef "read_spectrum" [.exprStmt .constStr, .other []],
    .functionDef "calculate_cloud_index" [.exprStmt .constStr, .other []],
    .functionDef "estimate_uv_index" [.exprStmt .constStr, .other []],
    .functionDef "detect_dawn_dusk" [.exprStmt .constStr, .other []],
    .other [.importStmt ["time"], .other [], .exprStmt .otherE, .other [.other []]]
  ]

/-- `ast.parse(csvLoggingText)`: module docstring; `import csv`,
`import time`, `from datetime import datetime`, `from pathlib import Path`,
`import board`, `import adafruit_ahtx0`; the `CSVDataLogger` class with its
six documented methods; the `if __name__` block whose `try` is guarded by a
`KeyboardInterrupt` handler and a `finally` clause. -/
def csvLoggingTree : PyNode :=
  .module [
    .exprStmt .constStr,
    .importStmt ["csv"],
    .importStmt ["time"],
    .importFrom (some "datetime") ["datetime"],
    .importFrom (some "pathlib") ["Path"],
    .importStmt ["board"],
    .importStmt ["adafruit_ahtx0"],
    .classDef "CSVDataLogger" [
      .exprStmt .constStr,
      .functionDef "__init__"
        [.exprStmt .constStr, .other [], .other [], .other [], .other [], .other [], .other []],
      .functionDef "_get_filename" [.exprStmt .constStr, .other [.other [], .other []]],
      .functionDef "_ensure_file_open" [.exprStmt .constStr, .other [], .other [.other []]],
      .functionDef "_write_headers" [.exprStmt .constStr, .other [], .exprStmt .otherE, .exprStmt .otherE],
      .functionDef "log_data" [.exprStmt .constStr, .exprStmt .otherE, .other [], .other [], .exprStmt .otherE, .exprStmt .otherE],
      .functionDef "close" [.exprStmt .constStr, .other [.exprStmt .otherE, .other [], .other [], .other []]]
    ],
    .other [
      .other [], .other [], .other [],
      .exprStmt .otherE, .exprStmt .otherE, .exprStmt .otherE,
      .tryStmt
        [.other [.other [], .other [], .exprStmt .otherE, .other [], .exprStmt .otherE, .exprStmt .otherE]]
        [.exceptHandler (some (.ename "KeyboardInterrupt")) [.exprStmt .otherE]]
        []
        [.exprStmt .otherE, .exprStmt .otherE]
    ]
  ]

/-- `ast.parse(errorHandlingText)`: module docstring; `import time`,
`import logging`, `from typing import Optional`, `import board`,
`import adafruit_ahtx0`; the logging configuration; two exception classes;
three functions containing the retry/safe-read/main-loop `try` statements;
the `if __name__` block. -/
def errorHandlingTree : PyNode :=
  .module [
    .exprStmt .constStr,
    .importStmt ["time"],
    .importStmt ["logging"],
    .importFrom (some "typing") ["Optional"],
    .importStmt ["board"],
    .importStmt ["adafruit_ahtx0"],
    .exprStmt .otherE,
    .other [],
    .classDef "SensorConnectionError" [.exprStmt .constStr, .other []],
    .classDef "SensorReadError" [.exprStmt .constStr, .other []],
    .functionDef "init_sensor_with_retry" [
      .exprStmt .constStr,
      .other [
        .tryStmt [.other [], .other [], .exprStmt .otherE, .other []]
          [.exceptHandler (some (.ename "ValueError")) [.exprStmt .otherE, .other []],
           .exceptHandler (some (.ename "RuntimeError")) [.exprStmt .otherE, .other []]]
          [] []
      ]
    ],
    .functionDef "read_sensor_safe" [
      .exprStmt .constStr,
      .tryStmt [.other [], .other [], .other [], .other []]
        [.exceptHandler (some (.ename "OSError")) [.exprStmt .otherE, .other []],
         .exceptHandler (some (.ename "RuntimeError")) [.exprStmt .otherE, .other []]]
        [] []
    ],
    .functionDef "main_loop_with_error_handling" [
      .exprStmt .constStr,
      .other [], .other [],
      .tryStmt
        [.other [
          .tryStmt [.other [], .other []]
            [.exceptHandler (some (.ename "SensorReadError"))
              [.exprStmt .otherE, .other [],
               .other [
                 .tryStmt [.other []]
                   [.exceptHandler (some (.ename "SensorConnectionError")) [.exprStmt .otherE]]
                   [] []
               ]]]
            [] []
        ]]
        [.exceptHandler (some (.ename "KeyboardInterrupt")) [.exprStmt .otherE, .other []],
         .exceptHandler (some (.ename "SensorConnectionError")) [.exprStmt .otherE, .other []],
         .exceptHandler (some (.ename "Exception")) [.exprStmt .otherE, .other []]]
        []
        [.exprStmt .otherE]
    ],
    .other [.exprStmt .otherE]
  ]

/-- `ast.parse(hts221Text)`: module docstring; `import board`,
`import adafruit_ahtx0`, `from adafruit_hts221 import HTS221`; three
functions; the `if __name__` block whose body starts with a nested
`import time`. -/
def hts221Tree : PyNode :=
  .module [
    .exprStmt .constStr,
    .importStmt ["board"],
    .importStmt ["adafruit_ahtx0"],
    .importFrom (some "adafruit_hts221") ["HTS221"],
    .functionDef "init_sensors" [.exprStmt .constStr, .other [], .other [], .other [], .other []],
    .functionDef "read_both_sensors" [.exprStmt .constStr, .other []],
    .functionDef "compare_sensors" [.exprStmt .constStr, .other [], .other [], .other []],
    .other [.importStmt ["time"], .other [], .exprStmt .otherE, .other [.other []]]
  ]

/-- `ast.parse(mqttExampleText)`: module docstring; `import json`,
`import time`, `import board`, `import adafruit_ahtx0`,
`import paho.mqtt.client as mqtt`; three configuration assignments; two
functions; the `if __name__` block with its `KeyboardInterrupt`-guarded
`try`. -/
def mqttExampleTree : PyNode :=
  .module [
    .exprStmt .constStr,
    .importStmt ["json"],
    .importStmt ["time"],
    .importStmt ["board"],
    .importStmt ["adafruit_ahtx0"],
    .importStmt ["paho.mqtt.client"],
    .other [], .other [], .other [],
    .functionDef "create_mqtt_client" [.exprStmt .constStr, .other [], .other []],
    .functionDef "publish_sensor_data" [.exprStmt .constStr, .other [], .exprStmt .otherE],
    .other [
      .other [], .other [], .other [],
      .tryStmt
        [.exprStmt .otherE, .exprStmt .otherE, .exprStmt .otherE, .exprStmt .otherE,
         .exprStmt .otherE,
         .other [.other [], .other [], .exprStmt .otherE, .exprStmt .otherE, .exprStmt .otherE]]
        [.exceptHandler (some (.ename "KeyboardInterrupt")) [.exprStmt .otherE]]
        []
        [.exprStmt .otherE, .exprStmt .otherE, .exprStmt .otherE]
    ]
  ]

/-- `ast.parse(neosliderText)`: module docstring; `import time`,
`import board`, `from adafruit_seesaw.seesaw import Seesaw`,
`import adafruit_ahtx0`; the `WeatherDisplay` class with its eight
documented methods; the `if __name__` block with its
`KeyboardInterrupt`-guarded `try`. -/
def neosliderTree : PyNode :=
  .module [
    .exprStmt .constStr,
    .importStmt ["time"],
    .importStmt ["board"],
    .importFrom (some "adafruit_seesaw.seesaw") ["Seesaw"],
    .importStmt ["adafruit_ahtx0"],
    .classDef "WeatherDisplay" [
      .exprStmt .constStr,
      .functionDef "__init__" [.exprStmt .constStr, .other [], .other [], .other [], .other []],
      .functionDef "temperature_to_color" [.exprStmt .constStr, .other [.other []]],
      .functionDef "humidity_to_brightness" [.exprStmt .constStr, .other []],
      .functionDef "apply_brightness" [.exprStmt .constStr, .other []],
      .functionDef "set_all_pixels" [.exprStmt .constStr, .other [], .exprStmt .otherE],
      .functionDef "animated_fill" [.exprStmt .constStr, .other []],
      .functionDef "breathing_effect" [.exprStmt .constStr, .other []],
      .functionDef "display_weather" [.exprStmt .constStr, .other [], .other [], .other []]
    ],
    .other [
      .other [], .other [], .exprStmt .otherE,
      .tryStmt
        [.other [.other [], .other [], .exprStmt .otherE, .exprStmt .otherE]]
        [.exceptHandler (some (.ename "KeyboardInterrupt")) [.exprStmt .otherE]]
        []
        [.exprStmt .otherE, .exprStmt .otherE]
    ]
  ]

/-- `ast.parse(testInstructorText)`: module docstring; `import ast`,
`import io`, `import re`, `import tokenize`, `from pathlib import Path`,
`import pytest`; the helpers (`_parse_file` catching `SyntaxError`,
`_strip_comments_and_docstrings` catching `tokenize.TokenError`, an
attribute expression and hence not a plain name); the three path constants;
the eleven test functions. -/
def testInstructorTree : PyNode :=
  .module [
    .exprStmt .constStr,
    .importStmt ["ast"],
    .importStmt ["io"],
    .importStmt ["re"],
    .importStmt ["tokenize"],
    .importFrom (some "pathlib") ["Path"],
    .importStmt ["pytest"],
    .functionDef "_get_repo_root" [.exprStmt .constStr, .other [], .other [.other []], .other []],
    .other [], .other [], .other [],
    .functionDef "_parse_file" [
      .exprStmt .constStr, .other [], .other [.other []],
      .tryStmt [.other [], .other [], .other []]
        [.exceptHandler (some (.ename "SyntaxError")) [.other []]]
        [] []
    ],
    .functionDef "_find_python_files" [.exprStmt .constStr, .other [], .other [], .other [.other [.exprStmt .otherE]], .other []],
    .functionDef "_strip_comments_and_docstrings" [
      .exprStmt .constStr, .other [],
      .tryStmt [.other [], .other [], .other [.other [.other []], .exprStmt .otherE, .other []]]
        [.exceptHandler (some .eother) [.other []]]
        [] [],
      .other []
    ],
    .functionDef "test_error_handling_added" [.exprStmt .constStr, .other [], .other [.exprStmt .otherE], .other [], .other [], .other [.exprStmt .otherE]],
    .functionDef "test_keyboard_interrupt_handling" [.exprStmt .constStr, .other [], .other [.exprStmt .otherE], .other [], .other [], .other [.other [.other [.other []]]], .other [.exprStmt .otherE]],
    .functionDef "test_data_validation_present" [.exprStmt .constStr, .other [], .other [.exprStmt .otherE], .other [], .other [], .other [], .other [], .other [.exprStmt .otherE]],
    .functionDef "test_timestamp_added" [.exprStmt .constStr, .other [], .other [.exprStmt .otherE], .other [], .other [], .other [.other [.other [.other []]]], .other [], .other [.exprStmt .otherE]],
    .functionDef "test_configuration_externalized" [.exprStmt .constStr, .other [], .other [.exprStmt .otherE], .other [], .other [], .other [.other [.other [.other []]]], .other [], .other [], .other [], .other [.exprStmt .otherE]],
    .functionDef "test_additional_sensor_integration" [.exprStmt .constStr, .other [], .other [], .other [.other [.other [.other []]]], .other [.other [.other [.other []]]], .other [], .other [], .other [.other [], .other [.other [.other []]]], .other [.exprStmt .otherE]],
    .functionDef "test_data_persistence" [.exprStmt .constStr, .other [], .other [], .other [.other [], .other [], .other [.other [.other [.other []]], .other [.other []]], .other [], .other [], .other [.other []]], .other [.exprStmt .otherE]],
    .functionDef "test_tests_written" [.exprStmt .constStr, .other [], .other [.exprStmt .otherE], .other [], .other [.exprStmt .otherE]],
    .functionDef "test_documentation_improved" [.exprStmt .constStr, .other [], .other [.exprStmt .otherE], .other [], .other [], .other [.other [.other []]], .other [], .other [.exprStmt .otherE]],
    .functionDef "test_code_modularization" [.exprStmt .constStr, .other [], .other [.other [.other [.other []]]], .other [], .other [], .other [.other [.other []]], .other [], .other [], .other [], .other [.exprStmt .otherE]],
    .functionDef "test_timer_pattern" [.exprStmt .constStr, .other [], .other [.exprStmt .otherE], .other [], .other [], .other [], .other [.exprStmt .otherE]]
  ]

end StationMeteo

namespace StationMeteo

/-! ## The embedded baseline repository: file states and listings -/

/-- `main.py` of the baseline: readable, parses to `mainPyTree`. -/
def mainPyFile : FileState := .present mainPyText (some mainPyTree)

/-- The baseline repository: every `.py` file `rglob("*.py")` yields from
the repository root (all baseline files are readable and parse), listed in
traversal order with its relative path components. -/
def baselineRepo : Repo := [
  (["main.py"], mainPyFile),
  (["ressources", "snippets", "as7341_weather_analysis.py"],
    .present as7341Text (some as7341Tree)),
  (["ressources", "snippets", "csv_logging.py"],
    .present csvLoggingText (some csvLoggingTree)),
  (["ressources", "snippets", "error_handling.py"],
    .present errorHandlingText (some errorHandlingTree)),
  (["ressources", "snippets", "hts221_cross_validation.py"],
    .present hts221Text (some hts221Tree)),
  (["ressources", "snippets", "mqtt_example.py"],
    .present mqttExampleText (some mqttExampleTree)),
  (["ressources", "snippets", "neoslider_display.py"],
    .present neosliderText (some neosliderTree)),
  (["sensors", "aht20_sensor.py"],
    .present aht20SensorText (some aht20SensorTree)),
  (["tests", "test_instructor.py"],
    .present testInstructorText (some testInstructorTree))
]

/-- `REPO_ROOT.iterdir()` on the baseline: name and is-directory flag of
each entry. -/
def baselineRootEntries : List (String × Bool) :=
  [("main.py", false), ("ressources", true), ("sensors", true), ("tests", true)]

/-- `tests/` glob `test_*.py` on the baseline. -/
def baselineTestsGlob : List String := ["test_instructor.py"]

/-- `sensors/` glob `*.py` on the baseline. -/
def baselineSensorsGlob : List String := ["aht20_sensor.py"]

/-- `REPO_ROOT.glob("*.py")` on the baseline. -/
def baselineRootPyGlob : List String := ["main.py"]

/-- The eleven detector verdicts on the unmodified baseline repository, in
detector order 1–11. -/
def baselineVerdicts : List (Except PyError Verdict) := [
  test_error_handling_added mainPyFile,
  test_keyboard_interrupt_handling mainPyFile,
  test_data_validation_present mainPyFile (TokOutcome.ok mainPyTokens),
  test_timestamp_added mainPyFile,
  test_configuration_externalized mainPyFile,
  test_additional_sensor_integration baselineRepo,
  test_data_persistence baselineRepo,
  test_tests_written true baselineTestsGlob,
  test_documentation_improved mainPyFile,
  test_code_modularization baselineSensorsGlob baselineRootEntries baselineRootPyGlob,
  test_timer_pattern mainPyFile
]

end StationMeteo

deriving instance DecidableEq for Except

namespace StationMeteo

/-! ## Concrete inputs used by the claim theorems -/

/-- Lines of a main program that calls `time.monotonic()` but contains no
subtraction-then-comparison expression (the text contains no `-` at all). -/
def c3Lines : List String := ["import time", "now = time.monotonic()", ""]

/-- A main program with a monotonic-clock call and no interval comparison. -/
def c3Text : String := joinLines c3Lines

/-- `ast.parse(c3Text)`: one import, one assignment. -/
def c3Tree : PyNode := .module [.importStmt ["time"], .other []]

/-- The file state of that program. -/
def c3File : FileState := .present c3Text (some c3Tree)

/-- Lines of a source file that imports `csv` and whose text contains the
quoted one-character string `a` but no file-open call (no occurrence of
`open` at all). -/
def c4Lines : List String := ["import csv", "x = \x27a\x27", ""]

/-- The text of that file. -/
def c4Text : String := joinLines c4Lines

/-- `ast.parse(c4Text)`: one import, one assignment. -/
def c4Tree : PyNode := .module [.importStmt ["csv"], .other []]

/-- A source text with inconsistent indentation: CPython's
`tokenize.generate_tokens` raises
`IndentationError: unindent does not match any outer indentation level`
on it, which is not a `tokenize.TokenError`. -/
def c5Text : String := "if True:\n        pass\n    x = 1\n"

/-- A repository whose only sensor-fragment import sits in a file nested in
a subdirectory other than `sensors/` (here `ressources/`): detector 6's
collection scans only top-level files and the sensors tree. -/
def c7Content : String := joinLines ["from adafruit_hts221 import HTS221", ""]

/-- `ast.parse(c7Content)`. -/
def c7Tree : PyNode := .module [.importFrom (some "adafruit_hts221") ["HTS221"]]

/-- The nested-file repository for claim C7. -/
def c7Repo : Repo :=
  [(["ressources", "hts_demo.py"], .present c7Content (some c7Tree))]

/-- Does `n` match detector 5's constant-name pattern `[A-Z][A-Z_0-9]{2,}`
entirely: an ASCII uppercase letter followed by at least two characters from
`[A-Z_0-9]`? -/
def upperNameOk (n : String) : Bool :=
  match n.data with
  | [] => false
  | c :: cs => isUpperC c && decide (2 ≤ cs.length) && cs.all isUpNumC

/-- A main program defining one top-level constant `name = 7` per line, for
the given names, and nothing else. -/
def c8Program (names : List String) : String :=
  joinLines ((names.map fun n => n ++ " = 7") ++ [""])

/-- `ast.parse(c8Program names)`: one (assignment) statement per name. -/
def c8Tree (names : List String) : PyNode :=
  .module (names.map fun _ => .other [])

/-- The file state of such a program. -/
def c8File (names : List String) : FileState :=
  .present (c8Program names) (some (c8Tree names))

/-- A repository containing a file under `sensors/__pycache__/`: detector
6's sensors walk applies no hidden/cache filter, `_find_python_files` does. -/
def c9Repo : Repo := [(["sensors", "__pycache__", "x.py"], .absent)]

/-- The offending path of `c9Repo`. -/
def c9BadPath : PyPath := ["sensors", "__pycache__", "x.py"]

/-- Lines of a main program whose only try statement is a `try/finally`
with zero exception handlers. -/
def c10Lines : List String := ["try:", "    x = 1", "finally:", "    y = 2", ""]

/-- The text of that program. -/
def c10Text : String := joinLines c10Lines

/-- `ast.parse(c10Text)`: a single `ast.Try` node with empty `handlers`
and a nonempty `finalbody`. -/
def c10Tree : PyNode := .module [.tryStmt [.other []] [] [] [.other []]]

end StationMeteo

set_option maxRecDepth 40000
set_option maxHeartbeats 1600000

namespace StationMeteo

/-! ## Decomposition lemmas

A newline-free pattern cannot match across a line boundary, so the
whole-text searches decompose into per-line searches over the line lists
the texts are built from; these lemmas let every concrete evaluation below
stay within one line (or one short text) at a time. -/

/-- `any` over a mapped list. -/
theorem any_over_map : ∀ {α β : Type} (f : α → β) (p : β → Bool) (l : List α),
    (l.map f).any p = l.any fun x => p (f x)
  | _, _, _, _, [] => rfl
  | _, _, f, p, x :: xs => by simp [List.any_cons, any_over_map f p xs]

/-- A newline-free pattern's prefix match ignores everything from the first
newline on. -/
theorem prefAt_append_nl : ∀ (pat l r : List Char), ('\n' : Char) ∉ pat →
    prefAt pat (l ++ '\n' :: r) = prefAt pat l
  | [], _, _, _ => by simp [prefAt]
  | p :: ps, [], r, h => by
    have hp : (p == '\n') = false :=
      beq_eq_false_iff_ne.mpr fun hpe => h (hpe ▸ List.mem_cons_self p ps)
    simp [prefAt, hp]
  | p :: ps, c :: cs, r, h => by
    have hrec := prefAt_append_nl ps cs r fun hm => h (List.mem_cons_of_mem p hm)
    simp only [List.cons_append, prefAt, List.append_eq] at hrec ⊢
    rw [hrec]

/-- A newline-free, nonempty pattern occurs in `l ++ '\n' :: r` iff it
occurs in `l` or in `r`. -/
theorem occursL_append_nl : ∀ (pat l r : List Char), ('\n' : Char) ∉ pat →
    pat ≠ [] → occursL pat (l ++ '\n' :: r) = (occursL pat l || occursL pat r)
  | [], _, _, _, hne => absurd rfl hne
  | p :: ps, [], r, h, _ => by
    have hp : (p == '\n') = false :=
      beq_eq_false_iff_ne.mpr fun hpe => h (hpe ▸ List.mem_cons_self p ps)
    simp [occursL, prefAt, hp]
  | pat, c :: cs, r, h, hne => by
    have hpre := prefAt_append_nl pat (c :: cs) r h
    have hrec := occursL_append_nl pat cs r h hne
    simp only [List.cons_append, List.append_eq] at hpre hrec ⊢
    simp only [occursL, hpre, hrec, Bool.or_assoc]

/-- A newline-free, nonempty pattern occurs in a newline-join iff it occurs
in one of the joined pieces. -/
theorem occursL_joinL : ∀ (pat : List Char) (ls : List (List Char)),
    ('\n' : Char) ∉ pat → pat ≠ [] →
    occursL pat (joinL ls) = ls.any fun l => occursL pat l
  | [], _, _, hne => absurd rfl hne
  | p :: ps, [], _, _ => by simp [joinL, occursL, prefAt]
  | pat, [l], _, _ => by simp [joinL]
  | pat, l :: l2 :: ls, h, hne => by
    show occursL pat (l ++ '\n' :: joinL (l2 :: ls)) = _
    rw [occursL_append_nl pat l (joinL (l2 :: ls)) h hne,
      occursL_joinL pat (l2 :: ls) h hne]
    simp

/-- String-level form of `occursL_joinL`: a literal-search over a file
content is the disjunction of the per-line searches. -/
theorem occursS_joinLines (pat : String) (ls : List String)
    (h : ('\n' : Char) ∉ pat.data) (hne : pat.data ≠ []) :
    occursS pat (joinLines ls) = ls.any fun s => occursS pat s := by
  show occursL pat.data (joinL (ls.map String.data)) = _
  rw [occursL_joinL pat.data (ls.map String.data) h hne,
    any_over_map String.data (fun l => occursL pat.data l) ls]
  rfl

/-- If a position pattern matches somewhere in `r`, it matches somewhere in
`l ++ r` (every suffix of `r` is a suffix of `l ++ r`). -/
theorem scanAny_append_right : ∀ (p : List Char → Bool) (l r : List Char),
    scanAny p r = true → scanAny p (l ++ r) = true
  | _, [], _, h => h
  | p, c :: cs, r, h => by
    simp [scanAny, scanAny_append_right p cs r h]

/-- Joining a concatenation of two nonempty line lists splits at a newline. -/
theorem joinL_append : ∀ (a b : List (List Char)), a ≠ [] → b ≠ [] →
    joinL (a ++ b) = joinL a ++ '\n' :: joinL b
  | [], _, ha, _ => absurd rfl ha
  | [x], b, _, hb => by
    cases b with
    | nil => exact absurd rfl hb
    | cons y ys => simp [joinL]
  | x :: x2 :: xs, b, _, hb => by
    have hrec := joinL_append (x2 :: xs) b (by simp) hb
    show joinL (x :: ((x2 :: xs) ++ b)) = (x ++ '\n' :: joinL (x2 :: xs)) ++ '\n' :: joinL b
    have hshape : joinL (x :: ((x2 :: xs) ++ b)) = x ++ '\n' :: joinL ((x2 :: xs) ++ b) := by
      rfl
    rw [hshape, hrec]
    simp

/-- A pattern whose first character does not occur in `s` does not occur in
`s`. -/
theorem occursL_head_notMem : ∀ (p : Char) (ps s : List Char), p ∉ s →
    occursL (p :: ps) s = false
  | _, _, [], _ => rfl
  | p, ps, c :: cs, h => by
    have h1 : (p == c) = false :=
      beq_eq_false_iff_ne.mpr fun hpe => h (hpe ▸ List.mem_cons_self c cs)
    simp [occursL, prefAt, h1,
      occursL_head_notMem p ps cs fun hm => h (List.mem_cons_of_mem c hm)]

/-- Lowering distributes over the newline-join (newlines are fixed by
`lowerC`). -/
theorem map_lowerC_joinL : ∀ ls : List (List Char),
    (joinL ls).map lowerC = joinL (ls.map (List.map lowerC))
  | [] => rfl
  | [l] => rfl
  | l :: l2 :: ls => by
    show (l ++ '\n' :: joinL (l2 :: ls)).map lowerC = _
    rw [List.map_append, List.map_cons, map_lowerC_joinL (l2 :: ls)]
    rfl

/-- Folding the split step over a newline-free chunk prepends it to the
current line. -/
theorem foldr_splitStep_nonl : ∀ (l : List Char) (acc : List Char × List (List Char)),
    ('\n' : Char) ∉ l → l.foldr splitStep acc = (l ++ acc.1, acc.2)
  | [], _, _ => rfl
  | c :: cs, acc, h => by
    have hc : (c == '\n') = false :=
      beq_eq_false_iff_ne.mpr fun hpe => h (hpe ▸ List.mem_cons_self c cs)
    simp [List.foldr_cons, splitStep, hc,
      foldr_splitStep_nonl cs acc fun hm => h (List.mem_cons_of_mem c hm)]

/-- Splitting a newline-join of newline-free lines recovers the lines. -/
theorem splitLinesL_joinL : ∀ ls : List (List Char), ls ≠ [] →
    (∀ l ∈ ls, ('\n' : Char) ∉ l) → splitLinesL (joinL ls) = ls
  | [], h, _ => absurd rfl h
  | [l], _, hl => by
    show ((joinL [l]).foldr splitStep ([], [])).1 :: ((joinL [l]).foldr splitStep ([], [])).2 = [l]
    rw [show joinL [l] = l from rfl,
      foldr_splitStep_nonl l ([], []) (hl l (List.mem_singleton.mpr rfl))]
    simp
  | l :: l2 :: ls, _, hl => by
    have IH := splitLinesL_joinL (l2 :: ls) (by simp)
      fun x hx => hl x (List.mem_cons_of_mem l hx)
    have hIH : ((joinL (l2 :: ls)).foldr splitStep ([], [])).1 ::
        ((joinL (l2 :: ls)).foldr splitStep ([], [])).2 = l2 :: ls := IH
    show ((joinL (l :: l2 :: ls)).foldr splitStep ([], [])).1 ::
      ((joinL (l :: l2 :: ls)).foldr splitStep ([], [])).2 = l :: l2 :: ls
    rw [show joinL (l :: l2 :: ls) = l ++ '\n' :: joinL (l2 :: ls) from rfl,
      List.foldr_append,
      show List.foldr splitStep ([], []) ('\n' :: joinL (l2 :: ls)) =
        splitStep '\n' ((joinL (l2 :: ls)).foldr splitStep ([], [])) from rfl,
      show splitStep '\n' ((joinL (l2 :: ls)).foldr splitStep ([], [])) =
        ([], ((joinL (l2 :: ls)).foldr splitStep ([], [])).1 ::
             ((joinL (l2 :: ls)).foldr splitStep ([], [])).2) from rfl,
      foldr_splitStep_nonl l _ (hl l (List.mem_cons_self l _))]
    rw [hIH]
    simp

/-- Detector 6's fragment regex over a file built from newline-free lines is
the disjunction of the per-line matches (both sides lowered). -/
theorem d6FragRegex_joinLines (ls : List String) (hne : ls ≠ [])
    (h : ∀ s ∈ ls, ('\n' : Char) ∉ s.data.map lowerC) (frag : String) :
    d6FragRegex frag (joinLines ls) =
      ls.any fun s => d6LineMatch (frag.data.map lowerC) (s.data.map lowerC) := by
  show (splitLinesL ((joinLines ls).data.map lowerC)).any _ = _
  rw [show (joinLines ls).data = joinL (ls.map String.data) from rfl,
    map_lowerC_joinL, List.map_map, splitLinesL_joinL]
  · rw [any_over_map]; rfl
  · simpa using hne
  · intro x hx
    rw [List.mem_map] at hx
    obtain ⟨s, hs, rfl⟩ := hx
    exact h s hs

end StationMeteo

namespace StationMeteo

/-! ## Evaluation of the detectors on the embedded baseline -/

/-- A literal-search over `main.py` decomposes into per-line searches. -/
theorem occursS_mainPy (pat : String) (h : ('\n' : Char) ∉ pat.data)
    (hne : pat.data ≠ []) :
    occursS pat mainPyText = mainPyLines.any fun s => occursS pat s :=
  occursS_joinLines pat mainPyLines h hne

/-- Detector 1 fails on the baseline `main.py` (no try statement). -/
theorem d1_baseline : test_error_handling_added mainPyFile = .ok .fail := by decide

/-- Detector 2 fails on the baseline `main.py` (no handler at all). -/
theorem d2_baseline : test_keyboard_interrupt_handling mainPyFile = .ok .fail := by
  decide

/-- Detector 9 fails on the baseline `main.py` (exactly 2 docstrings). -/
theorem d9_baseline : test_documentation_improved mainPyFile = .ok .fail := by decide

/-- Detector 8 fails on the baseline (no student test file). -/
theorem d8_baseline : test_tests_written true baselineTestsGlob = .ok .fail := by
  decide

/-- Detector 10 passes on the baseline: `ressources/` is a top-level
directory outside the fixed baseline set. -/
theorem d10_baseline :
    test_code_modularization baselineSensorsGlob baselineRootEntries
      baselineRootPyGlob = .ok .pass := by decide

/-- Detector 4 fails on the baseline `main.py`: no datetime import and no
time-formatting vocabulary in the raw text. -/
theorem d4_baseline : test_timestamp_added mainPyFile = .ok .fail := by
  have h1 : d4FoundImport mainPyTree = false := by decide
  have h2 : d4TimeRegex mainPyText = false := by
    show (["strftime", "isoformat", "datetime.now", "datetime.utcnow",
      "time.ctime", "time.localtime"].any fun w => occursS w mainPyText) = false
    rw [List.any_cons, List.any_cons, List.any_cons, List.any_cons,
      List.any_cons, List.any_cons, List.any_nil,
      occursS_mainPy "strftime" (by decide) (by decide),
      occursS_mainPy "isoformat" (by decide) (by decide),
      occursS_mainPy "datetime.now" (by decide) (by decide),
      occursS_mainPy "datetime.utcnow" (by decide) (by decide),
      occursS_mainPy "time.ctime" (by decide) (by decide),
      occursS_mainPy "time.localtime" (by decide) (by decide)]
    decide
  show (if d4FoundImport mainPyTree || d4TimeRegex mainPyText then
      Except.ok Verdict.pass else Except.ok Verdict.fail) = Except.ok Verdict.fail
  rw [h1, h2]
  rfl

/-- Detector 11 fails on the baseline `main.py`: no monotonic-clock call. -/
theorem d11_baseline : test_timer_pattern mainPyFile = .ok .fail := by
  have h2 : d11HasMonotonic mainPyText = false := by
    show (occursS "time.monotonic" mainPyText || occursS "monotonic()" mainPyText) = false
    rw [occursS_mainPy "time.monotonic" (by decide) (by decide),
      occursS_mainPy "monotonic()" (by decide) (by decide)]
    decide
  show (if d11HasMonotonic mainPyText then
      Except.ok Verdict.pass else Except.ok Verdict.fail) = Except.ok Verdict.fail
  rw [h2]
  rfl

end StationMeteo

namespace StationMeteo

/-- The constant regex finds no match in the baseline `main.py`. -/
theorem const_count_main : countUppercaseConstants mainPyText = 0 := by decide

/-- Detector 5 fails on the baseline `main.py`: no config import, no
environment read, zero constant-regex matches. -/
theorem d5_baseline : test_configuration_externalized mainPyFile = .ok .fail := by
  have h1 : d5FoundImport mainPyTree = false := by decide
  have h2 : d5EnvRegex mainPyText = false := by
    show (occursS "os.environ" mainPyText || occursS "os.getenv" mainPyText) = false
    rw [occursS_mainPy "os.environ" (by decide) (by decide),
      occursS_mainPy "os.getenv" (by decide) (by decide)]
    decide
  show (if d5FoundImport mainPyTree || d5EnvRegex mainPyText ||
      decide (3 ≤ countUppercaseConstants mainPyText) then
      Except.ok Verdict.pass else Except.ok Verdict.fail) = Except.ok Verdict.fail
  rw [h1, h2, const_count_main]
  rfl

/-- No additional-sensor fragment matches in the baseline `main.py`. -/
theorem d6_main_false : d6FragAny mainPyText = false := by
  show (additionalSensors.any fun frag => d6FragRegex frag mainPyText) = false
  rw [show mainPyText = joinLines mainPyLines from rfl]
  simp only [additionalSensors, List.any_cons, List.any_nil,
    d6FragRegex_joinLines mainPyLines (by decide) (by decide)]
  decide

/-- No additional-sensor fragment matches in the baseline AHT20 module. -/
theorem d6_aht20_false : d6FragAny aht20SensorText = false := by
  show (additionalSensors.any fun frag => d6FragRegex frag aht20SensorText) = false
  rw [show aht20SensorText = joinLines aht20SensorLines from rfl]
  simp only [additionalSensors, List.any_cons, List.any_nil,
    d6FragRegex_joinLines aht20SensorLines (by decide) (by decide)]
  decide

/-- Detector 6 fails on the baseline: its collection consists of `main.py`
and `sensors/aht20_sensor.py`, and neither matches any fragment. -/
theorem d6_baseline : test_additional_sensor_integration baselineRepo = .ok .fail := by
  have hc : d6CollectFiles baselineRepo =
      [(["main.py"], mainPyFile),
       (["sensors", "aht20_sensor.py"],
         .present aht20SensorText (some aht20SensorTree))] := by rfl
  show Except.ok (if (d6CollectFiles baselineRepo).any (fun pf => d6FileFound pf.2)
      then Verdict.pass else Verdict.fail) = Except.ok Verdict.fail
  rw [hc]
  simp only [List.any_cons, List.any_nil, mainPyFile, d6FileFound,
    d6_main_false, d6_aht20_false]
  rfl

/-- The baseline `main.py` yields no persistence evidence (no csv/json
import). -/
theorem pe_main : persistenceEvidence mainPyTree mainPyText = false := by
  have h : hasFormatImport mainPyTree = false := by decide
  simp [persistenceEvidence, h]

/-- The AS7341 snippet yields no persistence evidence (no csv/json import). -/
theorem pe_as7341 : persistenceEvidence as7341Tree as7341Text = false := by
  have h : hasFormatImport as7341Tree = false := by decide
  simp [persistenceEvidence, h]

/-- The second alternative of the file-write regex (a quoted `a`) matches in
`csv_logging.py`: line 83 opens the CSV file in append mode. -/
theorem csv_qaq : scanAny qaqAt csvLoggingText.data = true := by
  have hsplit : csvLoggingLines.map String.data =
      (csvLoggingLines.take 82).map String.data ++
      (csvLoggingLines.drop 82).map String.data := by
    rw [← List.map_append, List.take_append_drop]
  show scanAny qaqAt (joinL (csvLoggingLines.map String.data)) = true
  rw [hsplit, joinL_append _ _ (by decide) (by decide), List.append_cons]
  exact scanAny_append_right qaqAt _ _ (by decide)

/-- `csv_logging.py` satisfies the file-write regex. -/
theorem csv_hfw : hasFileWriteRegex csvLoggingText = true := by
  show (scanAny d7OpenWAt csvLoggingText.data || scanAny qaqAt csvLoggingText.data) = true
  rw [csv_qaq, Bool.or_true]

/-- `csv_logging.py` satisfies detector 7's strict evidence pairing. -/
theorem pe_csv : persistenceEvidence csvLoggingTree csvLoggingText = true := by
  have h : hasFormatImport csvLoggingTree = true := by decide
  show (hasFormatImport csvLoggingTree && hasFileWriteRegex csvLoggingText ||
    hasFormatImport csvLoggingTree && d7LooseVocab csvLoggingText) = true
  rw [h, csv_hfw]
  rfl

/-- Unfolding equation of the persistence scan at a readable, parsed file. -/
theorem scanPersistence_cons_present (t : String) (tr : PyNode) (fs : List FileState) :
    scanPersistence (FileState.present t (some tr) :: fs) =
      if persistenceEvidence tr t then .ok true else scanPersistence fs := rfl

/-- Detector 7 passes on the baseline: the scan reaches
`ressources/snippets/csv_logging.py` and stops there with evidence found. -/
theorem d7_baseline : test_data_persistence baselineRepo = .ok .pass := by
  have hm : (find_python_files baselineRepo).map (fun pf => pf.2) =
      [mainPyFile,
       .present as7341Text (some as7341Tree),
       .present csvLoggingText (some csvLoggingTree),
       .present errorHandlingText (some errorHandlingTree),
       .present hts221Text (some hts221Tree),
       .present mqttExampleText (some mqttExampleTree),
       .present neosliderText (some neosliderTree),
       .present aht20SensorText (some aht20SensorTree),
       .present testInstructorText (some testInstructorTree)] := by rfl
  have hs : scanPersistence ((find_python_files baselineRepo).map fun pf => pf.2) =
      .ok true := by
    rw [hm, show mainPyFile = FileState.present mainPyText (some mainPyTree) from rfl,
      scanPersistence_cons_present, pe_main]
    simp only [Bool.false_eq_true, if_false]
    rw [scanPersistence_cons_present, pe_as7341]
    simp only [Bool.false_eq_true, if_false]
    rw [scanPersistence_cons_present, pe_csv]
    simp
  unfold test_data_persistence
  rw [hs]
  rfl

end StationMeteo

namespace StationMeteo

/-- The stripping helper, fed `main.py`'s token stream, produces exactly
`strippedMainText`. -/
theorem strip_main :
    strip_comments_and_docstrings mainPyText (TokOutcome.ok mainPyTokens) =
      .ok strippedMainText := by decide

/-- Lowering the stripped text gives the `strippedMainLow` literal. -/
theorem low_main : strippedMainText.data.map lowerC = strippedMainLow.data := by
  decide

/-- Pattern 1 of detector 3 has no match in the stripped baseline text. -/
theorem d3p1_main : scanAny d3Pat1At strippedMainLow.data = false := by decide

/-- Pattern 2 of detector 3 has no match in the stripped baseline text. -/
theorem d3p2_main : scanAny d3Pat2At strippedMainLow.data = false := by decide

/-- The validation-vocabulary words do not occur in the stripped baseline
text. -/
theorem d3w1_main :
    (["is_valid", "valide", "validate", "validation", "plage", "range",
      "aberrant"].any fun w => occursL w.data strippedMainLow.data) = false := by
  decide

/-- The MIN_/MAX_/SEUIL_/THRESHOLD fragments do not occur in the stripped
baseline text. -/
theorem d3w2_main :
    (["min_", "max_", "seuil_", "threshold"].any fun w =>
      occursL w.data strippedMainLow.data) = false := by decide

/-- No validation pattern matches the stripped baseline `main.py`. -/
theorem d3_main : d3AnyPattern strippedMainText = false := by
  simp only [d3AnyPattern, low_main]
  rw [d3p1_main, d3p2_main, d3w1_main, d3w2_main]
  rfl

/-- Detector 3 fails on the baseline `main.py`. -/
theorem d3_baseline :
    test_data_validation_present mainPyFile (TokOutcome.ok mainPyTokens) =
      .ok .fail := by
  show (match strip_comments_and_docstrings mainPyText (TokOutcome.ok mainPyTokens) with
    | Except.error e => Except.error e
    | Except.ok stripped =>
      if d3AnyPattern stripped then Except.ok Verdict.pass
      else Except.ok Verdict.fail) = Except.ok Verdict.fail
  rw [strip_main]
  show (if d3AnyPattern strippedMainText then Except.ok Verdict.pass
    else Except.ok Verdict.fail) = Except.ok Verdict.fail
  rw [d3_main]
  rfl

end StationMeteo

namespace StationMeteo

/-! ## Claim theorems -/

/-- C1 (counterexample): contrary to the claim, detector 7 (data
persistence) *passes* on the unmodified baseline repository: its recursive
scan reaches `ressources/snippets/csv_logging.py`, which imports `csv` and
whose raw text matches the write/append-mode regex, so the baseline does not
yield 11 failing verdicts. -/
theorem c1_baseline_counterexample :
    test_data_persistence baselineRepo = .ok .pass := d7_baseline

/-- C1 (amended): running all 11 detectors on the unmodified baseline
repository yields 9 failing and 2 passing verdicts, and no skips and no
crashes: detectors 1–6, 8, 9 and 11 fail, detector 7 passes (via
`ressources/snippets/csv_logging.py`), and detector 10 passes (the
`ressources/` directory lies outside its fixed baseline directory set). -/
theorem c1_baseline_amended :
    baselineVerdicts =
      [.ok .fail, .ok .fail, .ok .fail, .ok .fail, .ok .fail, .ok .fail,
       .ok .pass, .ok .fail, .ok .fail, .ok .pass, .ok .fail] := by
  show [test_error_handling_added mainPyFile,
    test_keyboard_interrupt_handling mainPyFile,
    test_data_validation_present mainPyFile (TokOutcome.ok mainPyTokens),
    test_timestamp_added mainPyFile,
    test_configuration_externalized mainPyFile,
    test_additional_sensor_integration baselineRepo,
    test_data_persistence baselineRepo,
    test_tests_written true baselineTestsGlob,
    test_documentation_improved mainPyFile,
    test_code_modularization baselineSensorsGlob baselineRootEntries baselineRootPyGlob,
    test_timer_pattern mainPyFile] = _
  rw [d1_baseline, d2_baseline, d3_baseline, d4_baseline, d5_baseline,
    d6_baseline, d7_baseline, d8_baseline, d9_baseline, d10_baseline,
    d11_baseline]

/-- C2: for every main-program file that is missing or fails to parse, each
of the seven detectors scoped to the main program (1, 2, 3, 4, 5, 9, 11)
reports a skip verdict — not a fail and not an escaping exception. -/
theorem c2_skip_on_missing_or_unparsable (mainPy : FileState) (tok : TokOutcome)
    (h : mainPy = FileState.absent ∨ ∃ t : String, mainPy = FileState.present t none) :
    test_error_handling_added mainPy = .ok .skip ∧
    test_keyboard_interrupt_handling mainPy = .ok .skip ∧
    test_data_validation_present mainPy tok = .ok .skip ∧
    test_timestamp_added mainPy = .ok .skip ∧
    test_configuration_externalized mainPy = .ok .skip ∧
    test_documentation_improved mainPy = .ok .skip ∧
    test_timer_pattern mainPy = .ok .skip := by
  rcases h with rfl | ⟨t, rfl⟩ <;> exact ⟨rfl, rfl, rfl, rfl, rfl, rfl, rfl⟩

/-- C2 (witness): the seven detectors all skip on a missing `main.py`. -/
theorem c2_witness :
    (FileState.absent = FileState.absent ∨
      ∃ t : String, FileState.absent = FileState.present t none) ∧
    test_error_handling_added FileState.absent = .ok .skip ∧
    test_keyboard_interrupt_handling FileState.absent = .ok .skip ∧
    test_data_validation_present FileState.absent TokOutcome.tokError = .ok .skip ∧
    test_timestamp_added FileState.absent = .ok .skip ∧
    test_configuration_externalized FileState.absent = .ok .skip ∧
    test_documentation_improved FileState.absent = .ok .skip ∧
    test_timer_pattern FileState.absent = .ok .skip :=
  ⟨Or.inl rfl,
    c2_skip_on_missing_or_unparsable FileState.absent TokOutcome.tokError (Or.inl rfl)⟩

/-- C3 (code bug): a main program whose raw text contains a monotonic-clock
call but no subtraction-then-comparison pattern still makes detector 11
pass — the source computes `has_interval` but never uses it, so the verdict
rests on `has_monotonic` alone, contradicting the specified conjunction. -/
theorem c3_monotonic_without_comparison_passes :
    d11HasMonotonic c3Text = true ∧
    d11IntervalPattern c3Text = false ∧
    test_timer_pattern c3File = .ok .pass :=
  ⟨by decide, by decide, by decide⟩

/-- C4 (code bug): the file-write regex
`open\s*\(.+['\"]w['\"]|['\"]a['\"]` treats the quoted one-character string
`a` anywhere as a match, because the alternation binds at the top level of
the pattern: a file with no occurrence of `open` at all satisfies the
"file-open" condition, and detector 7's strict path accepts it together
with a `csv` import. -/
theorem c4_quoted_a_without_open_matches :
    occursS "open" c4Text = false ∧
    hasFileWriteRegex c4Text = true ∧
    persistenceEvidence c4Tree c4Text = true :=
  ⟨by decide, by decide, by decide⟩

/-- C5 (code bug): the stripping helper catches only `tokenize.TokenError`;
a tokenization failure reported as an `IndentationError` (as CPython raises
for `c5Text`, whose indentation is inconsistent) propagates out of
`strip_comments_and_docstrings` instead of returning the original text.
A genuine `TokenError` on the same text would be caught. -/
theorem c5_indentation_failure_propagates :
    strip_comments_and_docstrings c5Text TokOutcome.indentError =
      .error PyError.indentFault ∧
    strip_comments_and_docstrings c5Text TokOutcome.tokError = .ok c5Text :=
  ⟨rfl, rfl⟩

/-- C6 (counterexample): a read error is *not* treated like an absent file:
`_parse_file` catches only `SyntaxError`, so the exception raised by
`read_text` propagates out of the helper (and hence out of a detector using
it) instead of yielding the absent value. -/
theorem c6_read_error_not_absent :
    parse_file FileState.readFault = .error PyError.readFault ∧
    ¬ parse_file FileState.readFault = .ok none ∧
    test_error_handling_added FileState.readFault = .error PyError.readFault :=
  ⟨rfl, fun h => Except.noConfusion h, rfl⟩

/-- C6 (amended): the file-loading helper returns the absent value for a
missing file and for a file whose text fails to parse; a read error,
however, is not handled and propagates as an exception. -/
theorem c6_amended :
    parse_file FileState.absent = .ok none ∧
    (∀ t : String, parse_file (FileState.present t none) = .ok none) ∧
    parse_file FileState.readFault = .error PyError.readFault :=
  ⟨rfl, fun _ => rfl, rfl⟩

/-- C7 (counterexample): a repository whose only sensor-library import sits
in a file nested in a subdirectory other than `sensors/` (here
`ressources/hts_demo.py`, importing `adafruit_hts221`) makes detector 6
fail: its collection globs only top-level files and the sensors tree, even
though the file is part of the repository's recursive enumeration. -/
theorem c7_nested_import_not_scanned :
    d6FragAny c7Content = true ∧
    (find_python_files c7Repo).map (fun pf => pf.1) = [["ressources", "hts_demo.py"]] ∧
    test_additional_sensor_integration c7Repo = .ok .fail :=
  ⟨by decide, rfl, rfl⟩

/-- C9 (counterexample): detector 6's collection applies no hidden/cache
filter: a file under `sensors/__pycache__/` is yielded by its sensors walk
even though its path fails the hidden/cache predicate (and the recursive
enumeration `_find_python_files` excludes it). -/
theorem c9_traversal_counterexample :
    goodPath c9BadPath = false ∧
    (d6CollectFiles c9Repo).map (fun pf => pf.1) = [c9BadPath] ∧
    find_python_files c9Repo = [] :=
  ⟨by decide, rfl, rfl⟩

/-- C9 (amended): the recursive all-source-files enumeration
(`_find_python_files`) yields only files whose path components contain no
segment starting with `.` and no segment equal to `__pycache__`; the
per-detector collections of detector 6 apply no such filter. -/
theorem c9_enumeration_filtered (repo : Repo) (pf : PyPath × FileState)
    (h : pf ∈ find_python_files repo) : goodPath pf.1 = true :=
  (List.mem_filter.mp h).2

/-- C9 (witness): the filtered enumeration of the baseline contains
`main.py`, whose path is clean. -/
theorem c9_witness :
    (["main.py"], mainPyFile) ∈ find_python_files baselineRepo ∧
    goodPath ["main.py"] = true :=
  ⟨List.mem_cons_self _ _,
    c9_enumeration_filtered baselineRepo (["main.py"], mainPyFile)
      (List.mem_cons_self _ _)⟩

/-- C10: detector 1 passes for any main program whose tree contains at
least one `ast.Try` node, whatever its shape — the handler list plays no
role, so a `try/finally` with zero exception handlers counts. -/
theorem c10_try_any_form (t : String) (tree : PyNode)
    (h : 0 < countTryNodes tree) :
    test_error_handling_added (FileState.present t (some tree)) = .ok .pass := by
  show (if countTryNodes tree == 0 then Except.ok Verdict.fail
    else Except.ok Verdict.pass) = .ok .pass
  rw [show (countTryNodes tree == 0) = false from
    beq_eq_false_iff_ne.mpr (Nat.pos_iff_ne_zero.mp h)]
  rfl

/-- C10 (witness): a `try/finally` statement with zero handlers makes
detector 1 pass. -/
theorem c10_witness :
    0 < countTryNodes c10Tree ∧
    test_error_handling_added (FileState.present c10Text (some c10Tree)) = .ok .pass :=
  ⟨by decide, c10_try_any_form c10Text c10Tree (by decide)⟩

end StationMeteo

namespace StationMeteo

/-! ## Constant-counting lemmas for claim C8 -/

/-- `joinL` over a cons with a nonempty tail. -/
theorem joinL_cons_ne (x : List Char) (rest : List (List Char)) (h : rest ≠ []) :
    joinL (x :: rest) = x ++ '\n' :: joinL rest := by
  cases rest with
  | nil => exact absurd rfl h
  | cons y ys => rfl

/-- A maximal run over a prefix whose characters all satisfy `p`. -/
theorem takeRun_append_sat (p : Char → Bool) :
    ∀ (xs ys : List Char), (∀ c ∈ xs, p c = true) →
      takeRun p (xs ++ ys) = ((takeRun p ys).1 + xs.length, (takeRun p ys).2)
  | [], ys, _ => by simp [takeRun]
  | x :: xs, ys, h => by
    have hx : p x = true := h x (List.mem_cons_self x xs)
    have ih := takeRun_append_sat p xs ys fun c hc => h c (List.mem_cons_of_mem x hc)
    simp only [List.cons_append, List.append_eq, takeRun, hx, if_true, ih,
      List.length_cons, Prod.mk.injEq]
    exact ⟨by omega, trivial⟩

/-- The constant regex matches at the head of a line `NAME = …` whose name
matches `[A-Z][A-Z_0-9]{2,}`, consuming the name, the single space, and the
equals sign. -/
theorem constMatchLen_name (n : String) (hn : upperNameOk n = true)
    (rest : List Char) :
    constMatchLen (n.data ++ ' ' :: '=' :: rest) = some (n.data.length + 2) := by
  cases hd : n.data with
  | nil => rw [upperNameOk, hd] at hn; exact absurd hn (by decide)
  | cons c cs =>
    rw [upperNameOk, hd] at hn
    obtain ⟨⟨hup, hlen⟩, hall⟩ :
        (isUpperC c = true ∧ decide (2 ≤ cs.length) = true) ∧ cs.all isUpNumC = true := by
      rw [Bool.and_eq_true, Bool.and_eq_true] at hn
      exact hn
    have hcs : ∀ d ∈ cs, isUpNumC d = true := fun d hd2 => by
      exact List.all_eq_true.mp hall d hd2
    show constMatchLen (c :: (cs ++ ' ' :: '=' :: rest)) = _
    rw [show constMatchLen (c :: (cs ++ ' ' :: '=' :: rest)) =
        (if isUpperC c then
          let r1 := takeRun isUpNumC (cs ++ ' ' :: '=' :: rest)
          if 2 ≤ r1.1 then
            let r2 := takeRun isSpaceC r1.2
            match r2.2 with
            | '=' :: _ => some (1 + r1.1 + r2.1 + 1)
            | _ => none
          else none
        else none) from rfl, hup, if_pos (show true = true from rfl)]
    rw [takeRun_append_sat isUpNumC cs (' ' :: '=' :: rest) hcs]
    rw [show takeRun isUpNumC (' ' :: '=' :: rest) = (0, ' ' :: '=' :: rest) from by
      simp [takeRun, show isUpNumC ' ' = false from by decide]]
    simp only [Nat.zero_add]
    rw [if_pos (by exact of_decide_eq_true hlen)]
    rw [show takeRun isSpaceC (' ' :: '=' :: rest) = (1, '=' :: rest) from by
      simp [takeRun, show isSpaceC ' ' = true from by decide,
        show isSpaceC '=' = false from by decide]]
    simp only [List.length_cons]
    congr 1
    omega

/-- Traversing a consumed match span with a positive skip counter attempts
no matches and ends after the span's last character. -/
theorem countConstAux_skip : ∀ (xs : List Char) (e : Char) (rest : List Char) (b : Bool),
    countConstAux ((xs ++ [e]) ++ rest) b (xs.length + 1) =
      countConstAux rest (e == '\n') 0
  | [], e, rest, b => by
    show countConstAux (e :: rest) b 1 = _
    rfl
  | x :: xs, e, rest, b => by
    show countConstAux (x :: ((xs ++ [e]) ++ rest)) b (xs.length + 1 + 1) = _
    rw [show countConstAux (x :: ((xs ++ [e]) ++ rest)) b (xs.length + 1 + 1) =
        countConstAux ((xs ++ [e]) ++ rest) (x == '\n') (xs.length + 1) from rfl]
    exact countConstAux_skip xs e rest (x == '\n')

/-- Scanning mid-line (no line start, empty skip) over newline-free
characters reaches the position after the next newline as a line start. -/
theorem countConstAux_pass : ∀ (xs rest : List Char),
    (∀ c ∈ xs, (c == '\n') = false) →
    countConstAux (xs ++ '\n' :: rest) false 0 = countConstAux rest true 0
  | [], rest, _ => by
    show countConstAux ('\n' :: rest) false 0 = _
    rfl
  | x :: xs, rest, h => by
    show countConstAux (x :: (xs ++ '\n' :: rest)) false 0 = _
    rw [show countConstAux (x :: (xs ++ '\n' :: rest)) false 0 =
        countConstAux (xs ++ '\n' :: rest) (x == '\n') 0 from rfl,
      h x (List.mem_cons_self x xs)]
    exact countConstAux_pass xs rest fun c hc => h c (List.mem_cons_of_mem x hc)

/-- One full `NAME = 7` line at a line start yields exactly one match and
continues at the next line start. -/
theorem countConstAux_name_line (n : String) (hn : upperNameOk n = true)
    (rest : List Char) :
    countConstAux (n.data ++ (' ' :: '=' :: ' ' :: '7' :: '\n' :: rest)) true 0 =
      1 + countConstAux rest true 0 := by
  cases hd : n.data with
  | nil => rw [upperNameOk, hd] at hn; exact absurd hn (by decide)
  | cons c cs =>
    have hup : isUpperC c = true := by
      rw [upperNameOk, hd] at hn
      rw [Bool.and_eq_true, Bool.and_eq_true] at hn
      exact hn.1.1
    have hm := constMatchLen_name n hn (' ' :: '7' :: '\n' :: rest)
    rw [hd] at hm
    simp only [List.append_eq, List.cons_append] at hm
    have hcnl : (c == '\n') = false := by
      refine beq_eq_false_iff_ne.mpr fun hc => ?_
      rw [hc] at hup
      exact absurd hup (by decide)
    show countConstAux (c :: (cs ++ ' ' :: '=' :: ' ' :: '7' :: '\n' :: rest)) true 0 = _
    rw [show countConstAux (c :: (cs ++ ' ' :: '=' :: ' ' :: '7' :: '\n' :: rest)) true 0 =
        (match constMatchLen (c :: (cs ++ ' ' :: '=' :: ' ' :: '7' :: '\n' :: rest)) with
         | some L => 1 + countConstAux (cs ++ ' ' :: '=' :: ' ' :: '7' :: '\n' :: rest)
             (c == '\n') (L - 1)
         | none => countConstAux (cs ++ ' ' :: '=' :: ' ' :: '7' :: '\n' :: rest)
             (c == '\n') 0) from rfl]
    rw [show constMatchLen (c :: (cs ++ ' ' :: '=' :: ' ' :: '7' :: '\n' :: rest)) =
        some ((c :: cs).length + 2) from hm]
    show 1 + countConstAux (cs ++ ' ' :: '=' :: ' ' :: '7' :: '\n' :: rest) (c == '\n')
        ((c :: cs).length + 2 - 1) = 1 + countConstAux rest true 0
    have hshape : cs ++ ' ' :: '=' :: ' ' :: '7' :: '\n' :: rest =
        ((cs ++ [' ']) ++ ['=']) ++ (' ' :: '7' :: '\n' :: rest) := by simp
    have hlen : (c :: cs).length + 2 - 1 = (cs ++ [' ']).length + 1 := by
      simp [List.length_append, List.length_cons]
    rw [hshape, hlen, countConstAux_skip (cs ++ [' ']) '=' (' ' :: '7' :: '\n' :: rest)
      (c == '\n')]
    rw [show (('=' : Char) == '\n') = false from by decide]
    rw [show (' ' :: '7' :: '\n' :: rest) = [' ', '7'] ++ '\n' :: rest from rfl,
      countConstAux_pass [' ', '7'] rest (by decide)]

/-- The `c8Program` content decomposes line by line. -/
theorem c8Program_cons (n : String) (ns : List String) :
    (c8Program (n :: ns)).data =
      n.data ++ (' ' :: '=' :: ' ' :: '7' :: '\n' :: (c8Program ns).data) := by
  show joinL ((((n :: ns).map fun m => m ++ " = 7") ++ [""]).map String.data) = _
  rw [show (((n :: ns).map fun m => m ++ " = 7") ++ [""]).map String.data =
      (n ++ " = 7").data :: (((ns.map fun m => m ++ " = 7") ++ [""]).map String.data)
    from rfl]
  rw [joinL_cons_ne _ _ (by simp)]
  rw [String.data_append]
  simp only [List.append_assoc]
  rfl

/-- The constant regex counts exactly one match per (well-named) constant
line of a `c8Program`. -/
theorem c8_count : ∀ names : List String, (∀ n ∈ names, upperNameOk n = true) →
    countConstAux (c8Program names).data true 0 = names.length
  | [], _ => by decide
  | n :: ns, h => by
    rw [c8Program_cons n ns,
      countConstAux_name_line n (h n (List.mem_cons_self n ns)) _,
      c8_count ns fun m hm => h m (List.mem_cons_of_mem n hm)]
    rw [List.length_cons]
    omega

/-- A well-formed constant name contains no lowercase `o`. -/
theorem upperName_no_o (n : String) (hn : upperNameOk n = true) :
    ('o' : Char) ∉ n.data := by
  cases hd : n.data with
  | nil => simp
  | cons c cs =>
    rw [upperNameOk, hd] at hn
    rw [Bool.and_eq_true, Bool.and_eq_true] at hn
    intro hmem
    rcases List.mem_cons.mp hmem with rfl | hcs
    · exact absurd hn.1.1 (by decide)
    · exact absurd (List.all_eq_true.mp hn.2 'o' hcs) (by decide)

/-- A `c8Program` with well-formed names contains no lowercase `o`. -/
theorem c8_no_o : ∀ names : List String, (∀ n ∈ names, upperNameOk n = true) →
    ('o' : Char) ∉ (c8Program names).data
  | [], _ => by decide
  | n :: ns, h => by
    rw [c8Program_cons n ns]
    intro hmem
    rcases List.mem_append.mp hmem with hn | hrest
    · exact upperName_no_o n (h n (List.mem_cons_self n ns)) hn
    · rcases List.mem_cons.mp hrest with he | hrest
      · exact absurd he (by decide)
      · rcases List.mem_cons.mp hrest with he | hrest
        · exact absurd he (by decide)
        · rcases List.mem_cons.mp hrest with he | hrest
          · exact absurd he (by decide)
          · rcases List.mem_cons.mp hrest with he | hrest
            · exact absurd he (by decide)
            · rcases List.mem_cons.mp hrest with he | hrest
              · exact absurd he (by decide)
              · exact c8_no_o ns (fun m hm => h m (List.mem_cons_of_mem n hm)) hrest

/-- No environment-variable read occurs in a `c8Program` (both patterns
start with `o`, which the content does not contain). -/
theorem c8_no_env (names : List String) (h : ∀ n ∈ names, upperNameOk n = true) :
    d5EnvRegex (c8Program names) = false := by
  show (occursS "os.environ" (c8Program names) ||
    occursS "os.getenv" (c8Program names)) = false
  rw [show occursS "os.environ" (c8Program names) =
      occursL ('o' :: "s.environ".data) (c8Program names).data from rfl,
    show occursS "os.getenv" (c8Program names) =
      occursL ('o' :: "s.getenv".data) (c8Program names).data from rfl,
    occursL_head_notMem 'o' _ _ (c8_no_o names h),
    occursL_head_notMem 'o' _ _ (c8_no_o names h)]
  rfl

/-- The walk of a body of plain statements is that body. -/
theorem nodesList_others : ∀ l : List String,
    nodesList (l.map fun _ => PyNode.other []) = l.map fun _ => PyNode.other []
  | [] => rfl
  | x :: xs => by
    show nodesOf (PyNode.other []) ++ nodesList (xs.map fun _ => PyNode.other []) = _
    rw [nodesList_others xs]
    rfl

/-- Any-false over a constant-false map. -/
theorem any_others_false (p : PyNode → Bool) (hp : p (PyNode.other []) = false) :
    ∀ l : List String, ((l.map fun _ => PyNode.other []).any p) = false
  | [] => rfl
  | x :: xs => by
    simp only [List.map_cons, List.any_cons, hp, any_others_false p hp xs]
    rfl

/-- A `c8Tree` contains no import statement of any kind, so detector 5's
config-import signal is off. -/
theorem c8_tree_no_import (names : List String) :
    d5FoundImport (c8Tree names) = false := by
  show ((PyNode.module (names.map fun _ => PyNode.other []) ::
    nodesList (names.map fun _ => PyNode.other [])).any _) = false
  rw [nodesList_others]
  rw [List.any_cons]
  rw [any_others_false _ rfl names]
  rfl

/-- C8 (counterexample): a main program defining exactly 3 top-level
ALL-UPPERCASE constants with two-character names (`AB`, `CD`, `EF`), all
other configuration signals absent, makes detector 5 *fail*: the constant
regex requires names of at least three characters. -/
theorem c8_short_names_rejected :
    countUppercaseConstants (c8Program ["AB", "CD", "EF"]) = 0 ∧
    test_configuration_externalized (c8File ["AB", "CD", "EF"]) = .ok .fail :=
  ⟨by decide, by decide⟩

/-- C8 (amended): with all other configuration signals absent, detector 5
passes when exactly 3 top-level constants with names matching
`[A-Z][A-Z_0-9]{2,}` are defined, and fails when only 2 are. -/
theorem c8_amended :
    (∀ n1 n2 n3 : String, upperNameOk n1 = true → upperNameOk n2 = true →
      upperNameOk n3 = true →
      test_configuration_externalized (c8File [n1, n2, n3]) = .ok .pass) ∧
    (∀ n1 n2 : String, upperNameOk n1 = true → upperNameOk n2 = true →
      test_configuration_externalized (c8File [n1, n2]) = .ok .fail) := by
  constructor
  · intro n1 n2 n3 h1 h2 h3
    have hnames : ∀ n ∈ [n1, n2, n3], upperNameOk n = true := by
      intro n hn
      rcases List.mem_cons.mp hn with rfl | hn
      · exact h1
      rcases List.mem_cons.mp hn with rfl | hn
      · exact h2
      rcases List.mem_cons.mp hn with rfl | hn
      · exact h3
      · exact absurd hn (List.not_mem_nil n)
    have hcnt : countUppercaseConstants (c8Program [n1, n2, n3]) = 3 :=
      c8_count [n1, n2, n3] hnames
    show (if d5FoundImport (c8Tree [n1, n2, n3]) ||
        d5EnvRegex (c8Program [n1, n2, n3]) ||
        decide (3 ≤ countUppercaseConstants (c8Program [n1, n2, n3])) then
        Except.ok Verdict.pass else Except.ok Verdict.fail) = Except.ok Verdict.pass
    rw [c8_tree_no_import, c8_no_env [n1, n2, n3] hnames, hcnt]
    rfl
  · intro n1 n2 h1 h2
    have hnames : ∀ n ∈ [n1, n2], upperNameOk n = true := by
      intro n hn
      rcases List.mem_cons.mp hn with rfl | hn
      · exact h1
      rcases List.mem_cons.mp hn with rfl | hn
      · exact h2
      · exact absurd hn (List.not_mem_nil n)
    have hcnt : countUppercaseConstants (c8Program [n1, n2]) = 2 :=
      c8_count [n1, n2] hnames
    show (if d5FoundImport (c8Tree [n1, n2]) ||
        d5EnvRegex (c8Program [n1, n2]) ||
        decide (3 ≤ countUppercaseConstants (c8Program [n1, n2])) then
        Except.ok Verdict.pass else Except.ok Verdict.fail) = Except.ok Verdict.fail
    rw [c8_tree_no_import, c8_no_env [n1, n2] hnames, hcnt]
    rfl

/-- C8 (witness): detector 5 passes on `ABC`, `DEF`, `GHI` and fails on
`ABC`, `DEF` alone. -/
theorem c8_amended_witness :
    (upperNameOk "ABC" = true ∧ upperNameOk "DEF" = true ∧
      upperNameOk "GHI" = true ∧
      test_configuration_externalized (c8File ["ABC", "DEF", "GHI"]) = .ok .pass) ∧
    test_configuration_externalized (c8File ["ABC", "DEF"]) = .ok .fail :=
  ⟨⟨by decide, by decide, by decide,
    c8_amended.1 "ABC" "DEF" "GHI" (by decide) (by decide) (by decide)⟩,
   c8_amended.2 "ABC" "DEF" (by decide) (by decide)⟩

end StationMeteo

namespace StationMeteo

/-! ## Collection lemmas for claim C7 -/

/-- The dedup-appending fold of detector 6's collection preserves an
already-found witness. -/
theorem d6fold_any_mono (q : PyPath × FileState → Bool) :
    ∀ (l acc : Repo), acc.any q = true →
      (l.foldl (fun acc x => if acc.any (fun g => g.1 == x.1) then acc
        else acc ++ [x]) acc).any q = true
  | [], _, h => h
  | y :: ys, acc, h => by
    rw [List.foldl_cons]
    by_cases hc : acc.any (fun g => g.1 == y.1) = true
    · rw [if_pos hc]
      exact d6fold_any_mono q ys acc h
    · rw [if_neg hc]
      exact d6fold_any_mono q ys (acc ++ [y]) (by rw [List.any_append, h]; rfl)

/-- Everything the dedup-appending fold collects comes from its accumulator
or its input list. -/
theorem d6fold_mem (x : PyPath × FileState) :
    ∀ (l acc : Repo),
      x ∈ l.foldl (fun acc x => if acc.any (fun g => g.1 == x.1) then acc
        else acc ++ [x]) acc → x ∈ acc ∨ x ∈ l
  | [], _, h => Or.inl h
  | y :: ys, acc, h => by
    rw [List.foldl_cons] at h
    rcases d6fold_mem x ys _ h with hin | hin
    · by_cases hc : acc.any (fun g => g.1 == y.1) = true
      · rw [if_pos hc] at hin
        exact Or.inl hin
      · rw [if_neg hc] at hin
        rcases List.mem_append.mp hin with h1 | h1
        · exact Or.inl h1
        · exact Or.inr (List.mem_cons.mpr (Or.inl (List.mem_singleton.mp h1)))
    · exact Or.inr (List.mem_cons_of_mem y hin)

/-- If the input list holds a witness and every same-path entry in sight is
also a witness, the fold's result contains a witness (the dedup step can
only replace the found entry by a same-path one). -/
theorem d6fold_found (q : PyPath × FileState → Bool) :
    ∀ (l acc : Repo) (pf : PyPath × FileState), pf ∈ l → q pf = true →
      (∀ x : PyPath × FileState, x ∈ acc ∨ x ∈ l → x.1 = pf.1 → q x = true) →
      (l.foldl (fun acc x => if acc.any (fun g => g.1 == x.1) then acc
        else acc ++ [x]) acc).any q = true
  | [], _, pf, hmem, _, _ => absurd hmem (List.not_mem_nil pf)
  | y :: ys, acc, pf, hmem, hq, hall => by
    rw [List.foldl_cons]
    rcases List.mem_cons.mp hmem with rfl | hmem2
    · by_cases hc : acc.any (fun g => g.1 == pf.1) = true
      · rw [if_pos hc]
        obtain ⟨x, hx, hxq⟩ := List.any_eq_true.mp hc
        exact d6fold_any_mono q ys acc (List.any_eq_true.mpr
          ⟨x, hx, hall x (Or.inl hx) (eq_of_beq hxq)⟩)
      · rw [if_neg hc]
        exact d6fold_any_mono q ys (acc ++ [pf])
          (by rw [List.any_append]; simp [hq])
    · refine d6fold_found q ys _ pf hmem2 hq ?_
      intro x hx hxp
      rcases hx with hx | hx
      · by_cases hc : acc.any (fun g => g.1 == y.1) = true
        · rw [if_pos hc] at hx
          exact hall x (Or.inl hx) hxp
        · rw [if_neg hc] at hx
          rcases List.mem_append.mp hx with h1 | h1
          · exact hall x (Or.inl h1) hxp
          · refine hall x (Or.inr ?_) hxp
            rw [List.mem_singleton.mp h1]
            exact List.mem_cons_self y ys
      · exact hall x (Or.inr (List.mem_cons_of_mem y hx)) hxp

/-- C7 (amended): under unique file paths, detector 6 passes whenever a
top-level `.py` file or a file anywhere under the sensors directory matches
a sensor fragment; and it fails when no file of the repository matches any
fragment (files nested in other subdirectories are never scanned). -/
theorem c7_amended :
    (∀ (repo : Repo) (p : PyPath) (c : String) (tr : Option PyNode),
      (repo.map Prod.fst).Nodup →
      (p, FileState.present c tr) ∈ repo →
      (p.length = 1 ∨ (p.head? = some "sensors" ∧ 2 ≤ p.length)) →
      d6FragAny c = true →
      test_additional_sensor_integration repo = .ok .pass) ∧
    (∀ repo : Repo,
      (∀ (p : PyPath) (c : String) (tr : Option PyNode),
        (p, FileState.present c tr) ∈ repo → d6FragAny c = false) →
      test_additional_sensor_integration repo = .ok .fail) := by
  constructor
  · intro repo p c tr hnodup hmem hscope hfrag
    have hq : d6FileFound (FileState.present c tr) = true := hfrag
    show Except.ok (if (d6CollectFiles repo).any (fun pf => d6FileFound pf.2)
        then Verdict.pass else Verdict.fail) = Except.ok Verdict.pass
    have hany : (d6CollectFiles repo).any (fun pf => d6FileFound pf.2) = true := by
      show ((sensorsRglobPy repo).foldl
        (fun acc x => if acc.any (fun g => g.1 == x.1) then acc else acc ++ [x])
        (rootGlobPy repo ++ sensorsGlobPy repo)).any (fun pf => d6FileFound pf.2) = true
      rcases hscope with hlen | ⟨hhead, hlen⟩
      · have hroot : (p, FileState.present c tr) ∈ rootGlobPy repo :=
          List.mem_filter.mpr ⟨hmem, by simp [hlen]⟩
        refine d6fold_any_mono _ _ _ ?_
        rw [List.any_append,
          List.any_eq_true.mpr ⟨(p, FileState.present c tr), hroot, hq⟩]
        rfl
      · have hrg : (p, FileState.present c tr) ∈ sensorsRglobPy repo :=
          List.mem_filter.mpr ⟨hmem, by simp [hhead, hlen]⟩
        refine d6fold_found _ _ _ _ hrg hq ?_
        intro x hx hxp
        have hxrepo : x ∈ repo := by
          rcases hx with hx | hx
          · rcases List.mem_append.mp hx with h1 | h1
            · exact List.mem_of_mem_filter h1
            · exact List.mem_of_mem_filter h1
          · exact List.mem_of_mem_filter hx
        have hxe := List.inj_on_of_nodup_map hnodup hxrepo hmem hxp
        rw [hxe]
        exact hq
    rw [hany]
    rfl
  · intro repo hall
    show Except.ok (if (d6CollectFiles repo).any (fun pf => d6FileFound pf.2)
        then Verdict.pass else Verdict.fail) = Except.ok Verdict.fail
    have hany : (d6CollectFiles repo).any (fun pf => d6FileFound pf.2) = false := by
      rw [List.any_eq_false]
      intro x hx
      have hxrepo : x ∈ repo := by
        have hx2 : x ∈ (sensorsRglobPy repo).foldl
            (fun acc x => if acc.any (fun g => g.1 == x.1) then acc else acc ++ [x])
            (rootGlobPy repo ++ sensorsGlobPy repo) := hx
        rcases d6fold_mem x _ _ hx2 with h1 | h1
        · rcases List.mem_append.mp h1 with h2 | h2
          · exact List.mem_of_mem_filter h2
          · exact List.mem_of_mem_filter h2
        · exact List.mem_of_mem_filter h1
      obtain ⟨xp, xf⟩ := x
      cases xf with
      | present cc ttr =>
        intro hcontr
        have hfr := hall xp cc ttr hxrepo
        rw [show d6FileFound (FileState.present cc ttr) = d6FragAny cc from rfl,
          hfr] at hcontr
        exact Bool.noConfusion hcontr
      | absent => exact fun hcontr => Bool.noConfusion hcontr
      | readFault => exact fun hcontr => Bool.noConfusion hcontr
    rw [hany]
    rfl

/-- C7 (witness): a fragment import directly under `sensors/` makes
detector 6 pass; the empty repository makes it fail. -/
theorem c7_amended_witness :
    ((([(["sensors", "hts_demo.py"],
        FileState.present c7Content (some c7Tree))] : Repo).map Prod.fst).Nodup ∧
      (["sensors", "hts_demo.py"], FileState.present c7Content (some c7Tree)) ∈
        ([(["sensors", "hts_demo.py"],
          FileState.present c7Content (some c7Tree))] : Repo) ∧
      d6FragAny c7Content = true ∧
      test_additional_sensor_integration
        [(["sensors", "hts_demo.py"],
          FileState.present c7Content (some c7Tree))] = .ok .pass) ∧
    test_additional_sensor_integration ([] : Repo) = .ok .fail := by
  refine ⟨⟨?_, ?_, ?_, ?_⟩, ?_⟩
  · simp
  · exact List.mem_cons_self _ _
  · decide
  · exact c7_amended.1 _ ["sensors", "hts_demo.py"] c7Content (some c7Tree)
      (by simp) (List.mem_cons_self _ _) (Or.inr ⟨rfl, by decide⟩) (by decide)
  · exact c7_amended.2 [] fun p c tr h => absurd h (List.not_mem_nil _)

end StationMeteo
